import Mathlib

/-!
# Bill analysis pipeline (`utils/gemini.js`)

A shallow embedding of the generative-AI mediation layer: the retrying request
driver `generateWithRetry`, the brace-span JSON extraction inlined in the three
analysis operations, the error log `logError`, and the operations
`analyzeBillText`, `analyzeBillImage` and `analyzeWithGemini`.

JavaScript control flow is made explicit: a computation yields either a returned
value or a raised value (`Except Thrown _`) together with the list of effects it
performed, in program order.  Collaborators (the provider SDK, the file system,
the clock) are parameters.  `console.log` output is not recorded; the evaluation
of its arguments is modelled wherever that evaluation can raise.
-/

namespace BillBackend

/-! ## JavaScript values that can be raised -/

/-- A value caught by a `catch` clause.  The code reads `.message` and `.stack`
from caught values, so the model records exactly what those reads yield:
`undefined`/`null` make every property read raise, a primitive (string, number,
boolean) has neither property, an object has each property either as a string
(`some`) or not at all (`none`, read as `undefined`). -/
inductive Thrown where
  | undefined
  | null
  | primitive (text : String)
  | object (message : Option String) (stack : Option String)
  deriving DecidableEq, Repr

/-- A `TypeError` created by the JavaScript engine, with the V8 message text
(the frames of its stack are left out). -/
def typeError (message : String) : Thrown :=
  .object (some message) (some ("TypeError: " ++ message))

/-- The read `err.message`: raises on `undefined`/`null`, otherwise yields the
property (`none` standing for `undefined`). -/
def Thrown.readMessage : Thrown → Except Thrown (Option String)
  | .undefined => .error (typeError "Cannot read properties of undefined (reading 'message')")
  | .null => .error (typeError "Cannot read properties of null (reading 'message')")
  | .primitive _ => .ok none
  | .object message _ => .ok message

/-- The read `err.stack`, for a value on which property reads do not raise. -/
def Thrown.readStack : Thrown → Option String
  | .object _ stack => stack
  | _ => none

/-- Worker for `String.prototype.includes` on character lists. -/
def includesChars : List Char → List Char → Bool
  | [], needle => needle.isEmpty
  | c :: cs, needle => needle.isPrefixOf (c :: cs) || includesChars cs needle

/-- The call `haystack.includes(needle)`. -/
def includes (haystack needle : String) : Bool :=
  includesChars haystack.toList needle.toList

/-! ## Requests, responses and the provider -/

/-- A Node `Buffer`: a sequence of bytes. -/
abbrev Buffer := List (Fin 256)

/-- The 64 digits of the base64 alphabet. -/
def base64Alphabet : List Char :=
  "ABCDEFGHIJKLMNOPQRSTUVWXYZabcdefghijklmnopqrstuvwxyz0123456789+/".toList

/-- The base64 digit of a 6-bit group. -/
def base64Digit (n : Nat) : Char := base64Alphabet.getD n 'A'

/-- Worker for `buffer.toString("base64")`: three bytes become four digits, the
last group is padded with `=`. -/
def base64Chars : List (Fin 256) → List Char
  | [] => []
  | [a] => [base64Digit (a.val / 4), base64Digit (a.val % 4 * 16), '=', '=']
  | [a, b] =>
    [base64Digit (a.val / 4), base64Digit (a.val % 4 * 16 + b.val / 16),
      base64Digit (b.val % 16 * 4), '=']
  | a :: b :: c :: rest =>
    base64Digit (a.val / 4) :: base64Digit (a.val % 4 * 16 + b.val / 16) ::
      base64Digit (b.val % 16 * 4 + c.val / 64) :: base64Digit (c.val % 64) :: base64Chars rest

/-- The call `buffer.toString("base64")`. -/
def Buffer.toBase64 (buffer : Buffer) : String := String.mk (base64Chars buffer)

/-- The argument of `model.generateContent`: the bare prompt, or the prompt part
followed by one inline-data part. -/
inductive Parts where
  | prompt (text : String)
  | multimodal (text : String) (data : String) (mimeType : Option String)
  deriving DecidableEq, Repr

/-- What calling `response.text()` does. `returns none` stands for a call that
yields `undefined` or `null`. -/
inductive TextAccessor where
  | returns (text : Option String)
  | throws (raised : Thrown)
  deriving DecidableEq, Repr

/-- The provider response, seen through what the driver does with it: `text` is
`some` exactly when `typeof response.text === 'function'`, `candidateText` is
the value of `response.candidates?.[0]?.content?.parts?.[0]?.text` (`none` when
the chain yields `undefined`), and `stringify` is what
`JSON.stringify(response, null, 2)` does: `none` when it yields a string,
`some e` when it raises `e` (a circular structure, a BigInt, a `toJSON` that
raises). -/
structure GenerationResponse where
  text : Option TextAccessor
  candidateText : Option String
  stringify : Option Thrown
  deriving DecidableEq, Repr

/-- The object `model.generateContent` resolves to; `response` is `none` when
`result.response` is `undefined` or `null`. -/
structure GenerateContentResult where
  response : Option GenerationResponse
  deriving DecidableEq, Repr

/-- A generative model handle. `generateContent k parts` is what the call does
when `k` calls have already been made on this handle: it raises or resolves. -/
structure GenerativeModel where
  generateContent : Nat → Parts → Except Thrown GenerateContentResult

/-- The SDK client. `getGenerativeModel` is what constructing a model handle
does: it raises or yields the handle. -/
structure GoogleGenerativeAI where
  getGenerativeModel : Except Thrown GenerativeModel

/-- An effect visible outside the module, in program order. -/
inductive Effect where
  | getGenerativeModel (model apiVersion : String)
  | generateContent (parts : Parts)
  | sleep (ms : Nat)
  | appendFileSync (path data : String) (succeeded : Bool)
  | consoleWarn (message : String)
  | consoleError (message : String)
  deriving DecidableEq, Repr

/-! ## `generateWithRetry` -/

/-- Line 28: the request sent on each attempt. With `isImage` set and no buffer,
`buffer.toString` raises. -/
def buildParts (prompt : String) (isImage : Bool) (buffer : Option Buffer)
    (mimetype : Option String) : Except Thrown Parts :=
  if isImage then
    match buffer with
    | none => .error (typeError "Cannot read properties of null (reading 'toString')")
    | some b => .ok (.multimodal prompt b.toBase64 mimetype)
  else .ok (.prompt prompt)

/-- Lines 39-48: the text of a response. The inner `catch` absorbs what the
accessor raises, but logs `e.message`, a read that itself raises when the
accessor raised `undefined` or `null`. -/
def extractText (response : GenerationResponse) : Except Thrown (Option String) :=
  match response.text with
  | some (.returns text) => .ok text
  | some (.throws e) =>
    match e.readMessage with
    | .error raised => .error raised
    | .ok _ => .ok (some "")
  | none =>
    match response.candidateText with
    | some t => if t ≠ "" then .ok (some t) else .ok (some "")
    | none => .ok (some "")

/-- Lines 55-56: the empty-text branch. The response is serialised for the log
before `null` is returned, and a raise of that serialisation is a raise of the
attempt. -/
def emptyResponse (response : GenerationResponse) : Except Thrown (Option String) :=
  match response.stringify with
  | some raised => .error raised
  | none => .ok none

/-- Lines 32-57: what an attempt does once `generateContent` has resolved. The
value `none` is `null`. -/
def completeAttempt (result : GenerateContentResult) : Except Thrown (Option String) :=
  match result.response with
  | none => .error (typeError "Cannot convert undefined or null to object")
  | some response =>
    match extractText response with
    | .error raised => .error raised
    | .ok (some text) => if text.length > 0 then .ok (some text) else emptyResponse response
    | .ok none => emptyResponse response

/-- Lines 27-57: the `try` block of one attempt, when `calls` calls were made
before: its completion, its effects, and the number of calls made so far. -/
def attempt (model : GenerativeModel) (prompt : String) (isImage : Bool)
    (buffer : Option Buffer) (mimetype : Option String) (calls : Nat) :
    Except Thrown (Option String) × List Effect × Nat :=
  match buildParts prompt isImage buffer mimetype with
  | .error raised => (.error raised, [], calls)
  | .ok parts =>
    match model.generateContent calls parts with
    | .error raised => (.error raised, [.generateContent parts], calls + 1)
    | .ok result => (completeAttempt result, [.generateContent parts], calls + 1)

/-- Lines 26-69: the `while (retries > 0)` loop, entered with `retries` and with
`calls` calls already made. -/
def retryLoop (model : GenerativeModel) (prompt : String) (isImage : Bool)
    (buffer : Option Buffer) (mimetype : Option String) :
    Nat → Nat → Except Thrown (Option String) × List Effect
  | 0, _ => (.ok none, [])
  | retries + 1, calls =>
    match attempt model prompt isImage buffer mimetype calls with
    | (.ok value, effects, _) => (.ok value, effects)
    | (.error err, effects, calls1) =>
      match err.readMessage with
      | .error raised => (.error raised, effects)
      | .ok none =>
        (.error (typeError "Cannot read properties of undefined (reading 'includes')"), effects)
      | .ok (some message) =>
        if includes message "429" && decide (retries + 1 > 1) then
          let next := retryLoop model prompt isImage buffer mimetype retries calls1
          (next.1, effects ++ .sleep 2000 :: next.2)
        else (.error err, effects)

/-- The function `generateWithRetry(model, prompt, isImage, buffer, mimetype)`. -/
def generateWithRetry (model : GenerativeModel) (prompt : String) (isImage : Bool)
    (buffer : Option Buffer) (mimetype : Option String) :
    Except Thrown (Option String) × List Effect :=
  retryLoop model prompt isImage buffer mimetype 3 0

/-! ## Brace-span extraction: `text.match(/\{[\s\S]*\}/)?.[0]` -/

/-- The tail `[\s\S]*\}` of the pattern, matched at the head of the input by
backtracking: the star first takes one more character and the rest of the
pattern is tried after it; when that fails the star stops here and the
character has to be the closing brace. -/
def matchStarClose : List Char → Option (List Char)
  | [] => none
  | c :: cs =>
    match matchStarClose cs with
    | some matched => some (c :: matched)
    | none => if c = '}' then some [c] else none

/-- The first match of `/\{[\s\S]*\}/`: start positions are tried from left to
right, and a start position matches when it holds an opening brace and the tail
of the pattern matches after it. -/
def firstMatchChars : List Char → Option (List Char)
  | [] => none
  | c :: cs =>
    if c = '{' then
      match matchStarClose cs with
      | some matched => some (c :: matched)
      | none => firstMatchChars cs
    else firstMatchChars cs

/-- The expression `text.match(/\{[\s\S]*\}/)?.[0]`; `none` is `undefined`. -/
def matchBraceSpan (text : String) : Option String :=
  (firstMatchChars text.toList).map String.mk

/-! ## `JSON.parse` -/

/-- A value produced by `JSON.parse`. A number is kept as the decimal it was
written as, `mantissa * 10 ^ exponent` (rounding to a double is not modelled);
an object keeps its members in source order, duplicates included. -/
inductive JsonValue where
  | null
  | bool (b : Bool)
  | number (mantissa exponent : Int)
  | string (s : String)
  | array (items : List JsonValue)
  | object (members : List (String × JsonValue))

/-- JSON whitespace. -/
def isJsonWhitespace (c : Char) : Bool :=
  c = ' ' || c = '\t' || c = '\n' || c = '\r'

/-- Drop leading JSON whitespace. -/
def skipWhitespace : List Char → List Char
  | [] => []
  | c :: cs => if isJsonWhitespace c then skipWhitespace cs else c :: cs

/-- Split off the leading decimal digits. -/
def takeDigits : List Char → List Char × List Char
  | [] => ([], [])
  | c :: cs =>
    if c.isDigit then ((takeDigits cs).1.cons c, (takeDigits cs).2) else ([], c :: cs)

/-- The natural number written by a list of decimal digits. -/
def digitsValue (digits : List Char) : Nat :=
  digits.foldl (fun n d => 10 * n + (d.toNat - '0'.toNat)) 0

/-- The exponent part of a number, if any: `[eE][+-]?[0-9]+`. -/
def parseExponent : List Char → Option (Int × List Char)
  | [] => some (0, [])
  | c :: cs =>
    if c = 'e' || c = 'E' then
      match cs with
      | '-' :: rest =>
        match takeDigits rest with
        | ([], _) => none
        | (ds, rest1) => some (-(digitsValue ds : Int), rest1)
      | '+' :: rest =>
        match takeDigits rest with
        | ([], _) => none
        | (ds, rest1) => some ((digitsValue ds : Int), rest1)
      | rest =>
        match takeDigits rest with
        | ([], _) => none
        | (ds, rest1) => some ((digitsValue ds : Int), rest1)
    else some (0, c :: cs)

/-- The digits of a number after its sign: `(0|[1-9][0-9]*)(\.[0-9]+)?` and the
exponent. -/
def parseUnsigned (cs : List Char) : Option ((Nat × Int) × List Char) :=
  match takeDigits cs with
  | ([], _) => none
  | (intDigits, rest) =>
    if intDigits.length > 1 && intDigits.head? = some '0' then none
    else
      match rest with
      | '.' :: rest1 =>
        match takeDigits rest1 with
        | ([], _) => none
        | (fracDigits, rest2) =>
          match parseExponent rest2 with
          | none => none
          | some (e, rest3) =>
            some ((digitsValue (intDigits ++ fracDigits), e - fracDigits.length), rest3)
      | _ =>
        match parseExponent rest with
        | none => none
        | some (e, rest3) => some ((digitsValue intDigits, e), rest3)

/-- A JSON number. -/
def parseNumber : List Char → Option (JsonValue × List Char)
  | '-' :: cs =>
    match parseUnsigned cs with
    | some ((m, e), rest) => some (.number (-(m : Int)) e, rest)
    | none => none
  | cs =>
    match parseUnsigned cs with
    | some ((m, e), rest) => some (.number (m : Int) e, rest)
    | none => none

/-- The value of a hexadecimal digit. -/
def hexDigit (c : Char) : Option Nat :=
  if c.isDigit then some (c.toNat - '0'.toNat)
  else if 'a'.toNat ≤ c.toNat ∧ c.toNat ≤ 'f'.toNat then some (c.toNat - 'a'.toNat + 10)
  else if 'A'.toNat ≤ c.toNat ∧ c.toNat ≤ 'F'.toNat then some (c.toNat - 'A'.toNat + 10)
  else none

/-- The code unit written by four hexadecimal digits. -/
def hex4 (a b c d : Char) : Option Nat :=
  match hexDigit a, hexDigit b, hexDigit c, hexDigit d with
  | some w, some x, some y, some z => some (((w * 16 + x) * 16 + y) * 16 + z)
  | _, _, _, _ => none

/-- The characters of a JSON string after its opening quote, up to the closing
quote; `acc` holds the decoded characters so far, last first. An escaped
surrogate code unit has no `Char`; U+FFFD stands for it. -/
def parseStringBody : Nat → List Char → List Char → Option (String × List Char)
  | 0, _, _ => none
  | _ + 1, [], _ => none
  | fuel + 1, c :: cs, acc =>
    if c = '"' then some (String.mk acc.reverse, cs)
    else if c = '\\' then
      match cs with
      | '"' :: rest => parseStringBody fuel rest ('"' :: acc)
      | '\\' :: rest => parseStringBody fuel rest ('\\' :: acc)
      | '/' :: rest => parseStringBody fuel rest ('/' :: acc)
      | 'b' :: rest => parseStringBody fuel rest (Char.ofNat 8 :: acc)
      | 'f' :: rest => parseStringBody fuel rest (Char.ofNat 12 :: acc)
      | 'n' :: rest => parseStringBody fuel rest ('\n' :: acc)
      | 'r' :: rest => parseStringBody fuel rest ('\r' :: acc)
      | 't' :: rest => parseStringBody fuel rest ('\t' :: acc)
      | 'u' :: h1 :: h2 :: h3 :: h4 :: rest =>
        match hex4 h1 h2 h3 h4 with
        | none => none
        | some unit =>
          if 0xD800 ≤ unit ∧ unit ≤ 0xDFFF then parseStringBody fuel rest (Char.ofNat 0xFFFD :: acc)
          else parseStringBody fuel rest (Char.ofNat unit :: acc)
      | _ => none
    else if c.toNat < 0x20 then none
    else parseStringBody fuel cs (c :: acc)

/-- The elements of a non-empty array after its opening bracket; `parseItem`
parses one value. -/
def parseElements (parseItem : List Char → Option (JsonValue × List Char)) :
    Nat → List Char → List JsonValue → Option (JsonValue × List Char)
  | 0, _, _ => none
  | fuel + 1, cs, acc =>
    match parseItem cs with
    | none => none
    | some (v, rest) =>
      match skipWhitespace rest with
      | ',' :: rest1 => parseElements parseItem fuel rest1 (v :: acc)
      | ']' :: rest1 => some (.array (v :: acc).reverse, rest1)
      | _ => none

/-- The members of a non-empty object after its opening brace; `parseItem`
parses one value. -/
def parseMembers (parseItem : List Char → Option (JsonValue × List Char)) :
    Nat → List Char → List (String × JsonValue) → Option (JsonValue × List Char)
  | 0, _, _ => none
  | fuel + 1, cs, acc =>
    match skipWhitespace cs with
    | '"' :: rest =>
      match parseStringBody rest.length.succ rest [] with
      | none => none
      | some (key, rest1) =>
        match skipWhitespace rest1 with
        | ':' :: rest2 =>
          match parseItem rest2 with
          | none => none
          | some (v, rest3) =>
            match skipWhitespace rest3 with
            | ',' :: rest4 => parseMembers parseItem fuel rest4 ((key, v) :: acc)
            | '}' :: rest4 => some (.object ((key, v) :: acc).reverse, rest4)
            | _ => none
        | _ => none
    | _ => none

/-- One JSON value, leading whitespace skipped; `fuel` bounds the nesting and the
number of items, and the length of the input is always enough. -/
def parseValue : Nat → List Char → Option (JsonValue × List Char)
  | 0, _ => none
  | fuel + 1, cs =>
    match skipWhitespace cs with
    | '{' :: rest =>
      match skipWhitespace rest with
      | '}' :: rest1 => some (.object [], rest1)
      | rest1 => parseMembers (parseValue fuel) fuel rest1 []
    | '[' :: rest =>
      match skipWhitespace rest with
      | ']' :: rest1 => some (.array [], rest1)
      | rest1 => parseElements (parseValue fuel) fuel rest1 []
    | '"' :: rest =>
      match parseStringBody rest.length.succ rest [] with
      | some (str, rest1) => some (.string str, rest1)
      | none => none
    | 't' :: 'r' :: 'u' :: 'e' :: rest => some (.bool true, rest)
    | 'f' :: 'a' :: 'l' :: 's' :: 'e' :: rest => some (.bool false, rest)
    | 'n' :: 'u' :: 'l' :: 'l' :: rest => some (.null, rest)
    | cs1 => parseNumber cs1

/-- The call `JSON.parse(text)`: `none` when it raises a `SyntaxError`. The whole
text has to be one value, with whitespace allowed around it. -/
def JSON.parse (text : String) : Option JsonValue :=
  match parseValue text.length.succ text.toList with
  | some (v, rest) => if skipWhitespace rest = [] then some v else none
  | none => none

/-- The `SyntaxError` raised by `JSON.parse`. The engine's message names the
offending token and position; one fixed text stands for it here. -/
def jsonSyntaxError : Thrown :=
  .object (some "Unexpected token in JSON") (some "SyntaxError: Unexpected token in JSON")

/-! ## The module state and `logError` -/

/-- What the module reads from outside itself: the client handle `genAI`
(`none` when no credential was configured), the clock, and the file system. -/
structure World where
  genAI : Option GoogleGenerativeAI
  now : String
  appendFileSync : String → String → Except Thrown Unit

/-- A property interpolated into a template literal. -/
def renderProperty : Option String → String
  | some s => s
  | none => "undefined"

/-- The function `logError(msg, err)`. The log line is built before the `try`,
so reading `err.message` on `undefined` or `null` raises out of `logError`; a
failed append is reported on the console and otherwise ignored. -/
def logError (world : World) (msg : String) (err : Thrown) : Except Thrown Unit × List Effect :=
  match err.readMessage with
  | .error raised => (.error raised, [])
  | .ok message =>
    let logMsg := "[" ++ world.now ++ "] " ++ msg ++ ": " ++ renderProperty message ++ "\n" ++
      renderProperty err.readStack ++ "\n\n"
    match world.appendFileSync "ai-errors.log" logMsg with
    | .ok _ => (.ok (), [.appendFileSync "ai-errors.log" logMsg true, .consoleError msg])
    | .error _ =>
      (.ok (), [.appendFileSync "ai-errors.log" logMsg false,
        .consoleError "Failed to write to log file", .consoleError msg])

/-! ## The analysis operations -/

/-- The constant `MODEL_NAME`. -/
def MODEL_NAME : String := "gemini-2.5-flash"

/-- What an analysis operation returns: the parsed JSON value, the raw provider
text, or `null`. -/
inductive AnalysisResult where
  | parsed (value : JsonValue)
  | raw (text : String)
  | null

/-- The error `new Error("GenAI client not initialized.")`. -/
def notInitialized : Thrown :=
  .object (some "GenAI client not initialized.") (some "Error: GenAI client not initialized.")

/-- The `catch (err)` clause of an operation: `logError(label, err); return null`,
after the effects already performed. -/
def catchAndLog (world : World) (label : String) (err : Thrown) (effects : List Effect) :
    Except Thrown AnalysisResult × List Effect :=
  match logError world label err with
  | (.error raised, logged) => (.error raised, effects ++ logged)
  | (.ok _, logged) => (.ok .null, effects ++ logged)

/-- The prompt template of `analyzeBillText`. -/
def billTextPrompt (text : String) : String :=
  "\n" ++
  "You are a Bill Analysis AI. Return output ONLY in JSON format:\n" ++
  "\x7b\n" ++
  "  \"billType\": \"Electricity/Water/Gas/Internet/Phone/Other\",\n" ++
  "  \"billDate\": \"YYYY-MM-DD\",\n" ++
  "  \"totalAmount\": 0.00,\n" ++
  "  \"currency\": \"USD\",\n" ++
  "  \"taxes\": [\x7b\"name\": \"Name\", \"amount\": 0.00\x7d],\n" ++
  "  \"summary\": \"Overview\",\n" ++
  "  \"analysis\": \"Specific details\",\n" ++
  "  \"suggestions\": [\"Step 1\", \"Step 2\"],\n" ++
  "  \"graphData\": \x7b\n" ++
  "    \"labels\": [\"L1\", \"L2\"],\n" ++
  "    \"datasets\": [\x7b\"label\": \"Cost Breakdown\", \"data\": [1, 2]\x7d]\n" ++
  "  \x7d\n" ++
  "\x7d\n" ++
  "Analyze this bill:\n" ++
  text ++ "\n"

/-- The prompt of `analyzeBillImage`. -/
def billImagePrompt : String :=
  "Analyze this bill image and extract the following information in JSON format:\n" ++
  "\x7b\n" ++
  "  \"billType\": \"Electricity/Water/Gas/Internet/Phone/Other\",\n" ++
  "  \"billDate\": \"YYYY-MM-DD\",\n" ++
  "  \"totalAmount\": <number>,\n" ++
  "  \"currency\": \"PKR or USD\",\n" ++
  "  \"taxes\": [\x7b\"name\": \"tax name\", \"amount\": <number>\x7d],\n" ++
  "  \"summary\": \"Brief overview of the bill\",\n" ++
  "  \"analysis\": \"Detailed analysis\",\n" ++
  "  \"suggestions\": [\"Suggestion 1\", \"Suggestion 2\"]\n" ++
  "\x7d\n" ++
  "\n" ++
  "Extract the total amount, bill type, date, and all charges/taxes. Return ONLY valid JSON."

/-- Lines 100-106 and 180-185: the inner `try` of the two text operations and
the fallback after it. Calling `.match` on `null` raises inside the `try`, as
does `JSON.parse` on an invalid candidate; `warn` is what the inner `catch`
emits. -/
def parseOrFallback (resultText : Option String) (warn : List Effect) :
    AnalysisResult × List Effect :=
  match resultText with
  | none => (.null, warn)
  | some text =>
    match matchBraceSpan text with
    | none => (.raw text, [])
    | some jsonStr =>
      if jsonStr.isEmpty then (.raw text, [])
      else
        match JSON.parse jsonStr with
        | some value => (.parsed value, [])
        | none => (.raw text, warn)

/-- The operation `analyzeBillText(text)`. -/
def analyzeBillText (world : World) (text : String) :
    Except Thrown AnalysisResult × List Effect :=
  match world.genAI with
  | none => catchAndLog world "Bill Text AI error" notInitialized []
  | some genAI =>
    match genAI.getGenerativeModel with
    | .error err =>
      catchAndLog world "Bill Text AI error" err [.getGenerativeModel MODEL_NAME "v1beta"]
    | .ok model =>
      match generateWithRetry model (billTextPrompt text) false none none with
      | (.error err, effects) =>
        catchAndLog world "Bill Text AI error" err
          (.getGenerativeModel MODEL_NAME "v1beta" :: effects)
      | (.ok resultText, effects) =>
        let outcome := parseOrFallback resultText [.consoleWarn "JSON parse failed"]
        (.ok outcome.1, .getGenerativeModel MODEL_NAME "v1beta" :: effects ++ outcome.2)

/-- Lines 151-164 of `analyzeBillImage`: the handling of the driver's result,
inside the outer `try`. A raise here goes to the operation's `catch`. -/
def imageResult (resultText : Option String) : Except Thrown AnalysisResult :=
  match resultText with
  | none => .ok .null
  | some text =>
    if text.length > 0 then
      match matchBraceSpan text with
      | none => .ok .null
      | some jsonStr =>
        if jsonStr.isEmpty then .ok .null
        else
          match JSON.parse jsonStr with
          | none => .error jsonSyntaxError
          | some .null =>
            .error (typeError "Cannot read properties of null (reading 'totalAmount')")
          | some parsed => .ok (.parsed parsed)
    else .ok .null

/-- The operation `analyzeBillImage(buffer, mimetype)`; `buffer` is `none` when
it is absent. -/
def analyzeBillImage (world : World) (buffer : Option Buffer) (mimetype : Option String) :
    Except Thrown AnalysisResult × List Effect :=
  match buffer with
  | none => (.ok .null, [])
  | some bytes =>
    if bytes.length < 100 then (.ok .null, [])
    else
      match world.genAI with
      | none => catchAndLog world "Bill Image AI error" notInitialized []
      | some genAI =>
        match genAI.getGenerativeModel with
        | .error err =>
          catchAndLog world "Bill Image AI error" err [.getGenerativeModel MODEL_NAME "v1beta"]
        | .ok model =>
          match generateWithRetry model billImagePrompt true buffer mimetype with
          | (.error err, effects) =>
            catchAndLog world "Bill Image AI error" err
              (.getGenerativeModel MODEL_NAME "v1beta" :: effects)
          | (.ok resultText, effects) =>
            match imageResult resultText with
            | .ok result => (.ok result, .getGenerativeModel MODEL_NAME "v1beta" :: effects)
            | .error err =>
              catchAndLog world "Bill Image AI error" err
                (.getGenerativeModel MODEL_NAME "v1beta" :: effects)

/-- The operation `analyzeWithGemini(prompt)`. Its inner `catch` is empty. -/
def analyzeWithGemini (world : World) (prompt : String) :
    Except Thrown AnalysisResult × List Effect :=
  match world.genAI with
  | none => catchAndLog world "Gemini General AI error" notInitialized []
  | some genAI =>
    match genAI.getGenerativeModel with
    | .error err =>
      catchAndLog world "Gemini General AI error" err [.getGenerativeModel MODEL_NAME "v1beta"]
    | .ok model =>
      match generateWithRetry model prompt false none none with
      | (.error err, effects) =>
        catchAndLog world "Gemini General AI error" err
          (.getGenerativeModel MODEL_NAME "v1beta" :: effects)
      | (.ok resultText, effects) =>
        let outcome := parseOrFallback resultText []
        (.ok outcome.1, .getGenerativeModel MODEL_NAME "v1beta" :: effects ++ outcome.2)

/-! ## The module-wide client handle (lines 7 and 19) -/

/-- The characters `String.prototype.trim` removes: ECMAScript white space and
line terminators. -/
def isJsWhitespace (c : Char) : Bool :=
  let n := c.toNat
  (0x9 ≤ n && n ≤ 0xD) || n = 0x20 || n = 0xA0 || n = 0x1680 || (0x2000 ≤ n && n ≤ 0x200A) ||
    n = 0x2028 || n = 0x2029 || n = 0x202F || n = 0x205F || n = 0x3000 || n = 0xFEFF

/-- The call `s.trim()`. -/
def jsTrim (s : String) : String :=
  String.mk ((s.toList.dropWhile isJsWhitespace).reverse.dropWhile isJsWhitespace).reverse

/-- The operands of `a || b` on environment variables: an unset variable and the
empty string are both falsy. -/
def orElseTruthy (a : Option String) (b : String) : String :=
  match a with
  | some value => if value.isEmpty then b else value
  | none => b

/-- The constant `GEMINI_API_KEY`, from the two environment variables. -/
def GEMINI_API_KEY (geminiEnv googleEnv : Option String) : String :=
  jsTrim (orElseTruthy geminiEnv (orElseTruthy googleEnv ""))

/-- The constant `genAI`: the client built from the credential, or `null` when
the credential is empty. -/
def genAI (geminiEnv googleEnv : Option String) (client : GoogleGenerativeAI) :
    Option GoogleGenerativeAI :=
  if (GEMINI_API_KEY geminiEnv googleEnv).isEmpty then none else some client

/-! ## Vocabulary of the specification -/

/-- A generation request as the operations issue it: a bare prompt, or a prompt
with one inline attachment. -/
inductive GenerationRequest where
  | text (prompt : String)
  | image (prompt : String) (buffer : Buffer) (mimetype : Option String)

/-- The argument `generateContent` receives for a request. -/
def GenerationRequest.parts : GenerationRequest → Parts
  | .text prompt => .prompt prompt
  | .image prompt buffer mimetype => .multimodal prompt buffer.toBase64 mimetype

/-- The driver applied to a request, the way the operations call it. -/
def send (model : GenerativeModel) : GenerationRequest → Except Thrown (Option String) × List Effect
  | .text prompt => generateWithRetry model prompt false none none
  | .image prompt buffer mimetype => generateWithRetry model prompt true (some buffer) mimetype

/-- A rate-limit failure: a raised value whose message string contains "429". -/
def Thrown.isRateLimit : Thrown → Bool
  | .object (some message) _ => includes message "429"
  | _ => false

/-- The response carries the text `t`: its accessor returns `t`, or it has no
accessor and the first candidate's first part holds `t`. -/
def GenerationResponse.hasText (response : GenerationResponse) (t : String) : Prop :=
  response.text = some (.returns (some t)) ∨ (response.text = none ∧ response.candidateText = some t)

/-- The effects of `k` rate-limited attempts, each followed by the backoff. -/
def backoffs (parts : Parts) : Nat → List Effect
  | 0 => []
  | k + 1 => .generateContent parts :: .sleep 2000 :: backoffs parts k

/-- The number of generation calls among the effects. -/
def providerCalls : List Effect → Nat
  | [] => 0
  | .generateContent _ :: rest => providerCalls rest + 1
  | _ :: rest => providerCalls rest

/-- The number of model constructions among the effects. -/
def modelConstructions : List Effect → Nat
  | [] => 0
  | .getGenerativeModel _ _ :: rest => modelConstructions rest + 1
  | _ :: rest => modelConstructions rest

/-- The backoff sleeps among the effects, in order. -/
def sleeps : List Effect → List Nat
  | [] => []
  | .sleep ms :: rest => ms :: sleeps rest
  | _ :: rest => sleeps rest

/-- The appends to the error log among the effects: the record and whether the
append succeeded. -/
def logAppends : List Effect → List (String × Bool)
  | [] => []
  | .appendFileSync _ data succeeded :: rest => (data, succeeded) :: logAppends rest
  | _ :: rest => logAppends rest

/-- The warnings among the effects. -/
def warnings : List Effect → List String
  | [] => []
  | .consoleWarn message :: rest => message :: warnings rest
  | _ :: rest => warnings rest

/-- The record format of the error log: timestamp, label, error text, stack. -/
def logRecord (world : World) (label : String) (message stack : Option String) : String :=
  "[" ++ world.now ++ "] " ++ label ++ ": " ++ renderProperty message ++ "\n" ++
    renderProperty stack ++ "\n\n"

/-- Whether the file system accepts the append of a record to the log file. -/
def appendSucceeds (world : World) (record : String) : Bool :=
  match world.appendFileSync "ai-errors.log" record with
  | .ok _ => true
  | .error _ => false

/-- The record written for the initialization error under a label. -/
def initializationRecord (world : World) (label : String) : String :=
  logRecord world label (some "GenAI client not initialized.")
    (some "Error: GenAI client not initialized.")

/-- The index of the first occurrence of a character. -/
def firstIndexOf (c : Char) : List Char → Option Nat
  | [] => none
  | x :: xs => if x = c then some 0 else (firstIndexOf c xs).map (· + 1)

/-- The index of the last occurrence of a character. -/
def lastIndexOf (c : Char) : List Char → Option Nat
  | [] => none
  | x :: xs =>
    match lastIndexOf c xs with
    | some j => some (j + 1)
    | none => if x = c then some 0 else none

/-- The brace span in the words of the specification: the substring from the
first opening brace to the last closing brace, inclusive, when the latter lies
after the former; otherwise there is none. -/
def braceSpan (text : List Char) : Option (List Char) :=
  match firstIndexOf '{' text, lastIndexOf '}' text with
  | some i, some j => if i < j then some ((text.drop i).take (j - i + 1)) else none
  | _, _ => none

/-! ## Concrete collaborators -/

/-- The provider's rate-limit error. -/
def rateLimitError : Thrown :=
  .object (some "[429 Too Many Requests] Resource has been exhausted")
    (some "Error: [429 Too Many Requests] Resource has been exhausted")

/-- A provider error that is not a rate limit. -/
def serverError : Thrown :=
  .object (some "[500 Internal Server Error]") (some "Error: [500 Internal Server Error]")

/-- A response whose accessor returns the given text. -/
def textResponse (text : String) : GenerateContentResult :=
  ⟨some ⟨some (.returns (some text)), none, none⟩⟩

/-- A model that is rate-limited on its first `limited` calls and then answers
with `text`. -/
def modelLimitedThenText (limited : Nat) (text : String) : GenerativeModel :=
  ⟨fun calls _ => if calls < limited then .error rateLimitError else .ok (textResponse text)⟩

/-- The error `JSON.stringify` raises on a circular structure. -/
def circularError : Thrown :=
  typeError "Converting circular structure to JSON"

/-- A model whose every call raises the given value. -/
def modelRaising (raised : Thrown) : GenerativeModel :=
  ⟨fun _ _ => .error raised⟩

/-- A model whose every call resolves to the given result. -/
def modelResolving (result : GenerateContentResult) : GenerativeModel :=
  ⟨fun _ _ => .ok result⟩

/-- A world with a working log file and the given client handle. -/
def worldWith (genAI : Option GoogleGenerativeAI) : World :=
  ⟨genAI, "2024-01-01T00:00:00.000Z", fun _ _ => .ok ()⟩

/-- A world whose client answers every generation call with `text`. -/
def worldAnswering (text : String) : World :=
  worldWith (some ⟨.ok (modelResolving (textResponse text))⟩)

/-- A world whose log file cannot be written, with the given client handle. -/
def worldFailingLog (genAI : Option GoogleGenerativeAI) : World :=
  ⟨genAI, "2024-01-01T00:00:00.000Z",
    fun _ _ => .error (.object (some "ENOSPC: no space left on device") none)⟩

/-- A buffer of `n` zero bytes. -/
def zeroBuffer (n : Nat) : Buffer := List.replicate n 0

/-! ## The retry driver -/

theorem buildParts_request (request : GenerationRequest) :
    (match request with
      | .text prompt => buildParts prompt false none none
      | .image prompt buffer mimetype => buildParts prompt true (some buffer) mimetype)
      = .ok request.parts := by
  cases request <;> simp [buildParts, GenerationRequest.parts]

theorem send_eq_retryLoop (model : GenerativeModel) (request : GenerationRequest) :
    ∃ prompt isImage buffer mimetype,
      buildParts prompt isImage buffer mimetype = .ok request.parts ∧
      send model request = retryLoop model prompt isImage buffer mimetype 3 0 := by
  cases request with
  | text prompt => exact ⟨prompt, false, none, none, by simp [buildParts, GenerationRequest.parts], rfl⟩
  | image prompt buffer mimetype =>
    exact ⟨prompt, true, some buffer, mimetype, by simp [buildParts, GenerationRequest.parts], rfl⟩

theorem isRateLimit_iff (e : Thrown) :
    e.isRateLimit = true ↔ ∃ message stack, e = .object (some message) stack ∧
      includes message "429" = true := by
  cases e with
  | object message stack =>
    cases message with
    | none => simp [Thrown.isRateLimit]
    | some m => simp [Thrown.isRateLimit]
  | _ => simp [Thrown.isRateLimit]

/-- One loop iteration whose generation call raises a rate-limit failure while
a retry remains: the call, the backoff, then the rest of the loop. -/
theorem retryLoop_rateLimited (model : GenerativeModel) (prompt : String) (isImage : Bool)
    (buffer : Option Buffer) (mimetype : Option String) (parts : Parts) (retries calls : Nat)
    (e : Thrown) (hparts : buildParts prompt isImage buffer mimetype = .ok parts)
    (hcall : model.generateContent calls parts = .error e) (hrate : e.isRateLimit = true) :
    retryLoop model prompt isImage buffer mimetype (retries + 2) calls =
      ((retryLoop model prompt isImage buffer mimetype (retries + 1) (calls + 1)).1,
        .generateContent parts :: .sleep 2000 ::
          (retryLoop model prompt isImage buffer mimetype (retries + 1) (calls + 1)).2) := by
  obtain ⟨message, stack, rfl, hm⟩ := (isRateLimit_iff e).1 hrate
  simp [retryLoop, attempt, hparts, hcall, Thrown.readMessage, hm]

/-- The last permitted iteration, or any iteration whose failure carries a
message without "429": the raised value leaves the loop as it is. -/
theorem retryLoop_rethrow (model : GenerativeModel) (prompt : String) (isImage : Bool)
    (buffer : Option Buffer) (mimetype : Option String) (parts : Parts) (retries calls : Nat)
    (message : String) (stack : Option String)
    (hparts : buildParts prompt isImage buffer mimetype = .ok parts)
    (hcall : model.generateContent calls parts = .error (.object (some message) stack))
    (hlast : retries = 0 ∨ includes message "429" = false) :
    retryLoop model prompt isImage buffer mimetype (retries + 1) calls =
      (.error (.object (some message) stack), [.generateContent parts]) := by
  rcases hlast with h | h
  · subst h
    simp [retryLoop, attempt, hparts, hcall, Thrown.readMessage]
  · simp [retryLoop, attempt, hparts, hcall, Thrown.readMessage, h]

/-- An iteration whose failure carries no message string: a `TypeError` leaves
the loop in its place. -/
theorem retryLoop_noMessage (model : GenerativeModel) (prompt : String) (isImage : Bool)
    (buffer : Option Buffer) (mimetype : Option String) (parts : Parts) (retries calls : Nat)
    (e : Thrown) (hparts : buildParts prompt isImage buffer mimetype = .ok parts)
    (hcall : model.generateContent calls parts = .error e)
    (hno : ∀ message stack, e ≠ .object (some message) stack) :
    ∃ text, retryLoop model prompt isImage buffer mimetype (retries + 1) calls =
      (.error (typeError text), [.generateContent parts]) := by
  cases e with
  | undefined =>
    exact ⟨"Cannot read properties of undefined (reading 'message')",
      by simp [retryLoop, attempt, hparts, hcall, Thrown.readMessage]⟩
  | null =>
    exact ⟨"Cannot read properties of null (reading 'message')",
      by simp [retryLoop, attempt, hparts, hcall, Thrown.readMessage]⟩
  | primitive t =>
    exact ⟨"Cannot read properties of undefined (reading 'includes')",
      by simp [retryLoop, attempt, hparts, hcall, Thrown.readMessage]⟩
  | object message stack =>
    cases message with
    | none =>
      exact ⟨"Cannot read properties of undefined (reading 'includes')",
        by simp [retryLoop, attempt, hparts, hcall, Thrown.readMessage]⟩
    | some m => exact absurd rfl (hno m stack)

/-- An iteration whose generation call resolves: the attempt's completion is the
loop's, when it is a return. -/
theorem retryLoop_resolved (model : GenerativeModel) (prompt : String) (isImage : Bool)
    (buffer : Option Buffer) (mimetype : Option String) (parts : Parts) (retries calls : Nat)
    (result : GenerateContentResult) (value : Option String)
    (hparts : buildParts prompt isImage buffer mimetype = .ok parts)
    (hcall : model.generateContent calls parts = .ok result)
    (hdone : completeAttempt result = .ok value) :
    retryLoop model prompt isImage buffer mimetype (retries + 1) calls =
      (.ok value, [.generateContent parts]) := by
  simp [retryLoop, attempt, hparts, hcall, hdone]

theorem completeAttempt_hasText (response : GenerationResponse) (t : String)
    (htext : response.hasText t) (hne : t ≠ "") :
    completeAttempt ⟨some response⟩ = .ok (some t) := by
  have hlen : 0 < t.length := by
    rcases t with ⟨cs⟩
    cases cs with
    | nil => exact absurd rfl hne
    | cons c cs => simp [String.length]
  rcases htext with h | ⟨h1, h2⟩
  · simp [completeAttempt, extractText, h, hlen]
  · simp [completeAttempt, extractText, h1, h2, hne, hlen]

/-- After `k` rate-limited attempts with a retry left, the loop has made `k`
calls and `k` backoffs and continues with the remaining budget. -/
theorem retryLoop_backoffs (model : GenerativeModel) (prompt : String) (isImage : Bool)
    (buffer : Option Buffer) (mimetype : Option String) (parts : Parts)
    (hparts : buildParts prompt isImage buffer mimetype = .ok parts) (n : Nat) :
    ∀ (k calls : Nat),
      (∀ i, i < k → ∃ e, model.generateContent (calls + i) parts = .error e ∧
        e.isRateLimit = true) →
      retryLoop model prompt isImage buffer mimetype (k + (n + 1)) calls =
        ((retryLoop model prompt isImage buffer mimetype (n + 1) (calls + k)).1,
          backoffs parts k ++
            (retryLoop model prompt isImage buffer mimetype (n + 1) (calls + k)).2) := by
  intro k
  induction k with
  | zero => intro calls _; simp [backoffs]
  | succ k ih =>
    intro calls hrate
    obtain ⟨e, hcall, he⟩ := hrate 0 (Nat.succ_pos k)
    have hstep := retryLoop_rateLimited model prompt isImage buffer mimetype parts (k + n) calls e
      hparts (by simpa using hcall) he
    have hnext := ih (calls + 1) (fun i hi => by
      have := hrate (i + 1) (Nat.succ_lt_succ hi)
      simpa [Nat.add_assoc, Nat.add_comm 1 i] using this)
    have e1 : k + 1 + (n + 1) = k + n + 2 := by omega
    have e2 : k + n + 1 = k + (n + 1) := by omega
    have e3 : calls + 1 + k = calls + (k + 1) := by omega
    rw [e1, hstep, e2, hnext, e3]
    simp [backoffs]

/-- C1: when attempts 1 and 2 raise a rate-limit failure and attempt 3 returns a
response with non-empty text `t`, the driver returns exactly `t` after exactly
three generation calls and exactly two sleeps of 2000 ms, one after attempt 1
and one after attempt 2, none after the successful attempt. -/
theorem generateWithRetry_succeeds_on_third_attempt (model : GenerativeModel)
    (request : GenerationRequest) (e1 e2 : Thrown) (response : GenerationResponse) (t : String)
    (h1 : model.generateContent 0 request.parts = .error e1) (hr1 : e1.isRateLimit = true)
    (h2 : model.generateContent 1 request.parts = .error e2) (hr2 : e2.isRateLimit = true)
    (h3 : model.generateContent 2 request.parts = .ok ⟨some response⟩)
    (htext : response.hasText t) (hne : t ≠ "") :
    send model request =
      (.ok (some t),
        [.generateContent request.parts, .sleep 2000, .generateContent request.parts,
          .sleep 2000, .generateContent request.parts]) ∧
    providerCalls (send model request).2 = 3 ∧ sleeps (send model request).2 = [2000, 2000] := by
  obtain ⟨prompt, isImage, buffer, mimetype, hparts, hsend⟩ := send_eq_retryLoop model request
  have hloop := retryLoop_backoffs model prompt isImage buffer mimetype request.parts hparts 0 2 0
    (fun i hi => by
      have : i = 0 ∨ i = 1 := by omega
      rcases this with rfl | rfl
      · exact ⟨e1, by simpa using h1, hr1⟩
      · exact ⟨e2, by simpa using h2, hr2⟩)
  have hlast := retryLoop_resolved model prompt isImage buffer mimetype request.parts 0 2
    ⟨some response⟩ (some t) hparts h3 (completeAttempt_hasText response t htext hne)
  have hall : send model request =
      (.ok (some t),
        [.generateContent request.parts, .sleep 2000, .generateContent request.parts,
          .sleep 2000, .generateContent request.parts]) := by
    rw [hsend]
    simpa [hlast, backoffs] using hloop
  refine ⟨hall, ?_, ?_⟩ <;> simp [hall, providerCalls, sleeps]

/-- C2: when the first three attempts all raise a rate-limit failure, the driver
makes exactly three generation calls, sleeps exactly twice, and raises the error
of the third attempt. -/
theorem generateWithRetry_exhausts_three_attempts (model : GenerativeModel)
    (request : GenerationRequest) (e1 e2 e3 : Thrown)
    (h1 : model.generateContent 0 request.parts = .error e1) (hr1 : e1.isRateLimit = true)
    (h2 : model.generateContent 1 request.parts = .error e2) (hr2 : e2.isRateLimit = true)
    (h3 : model.generateContent 2 request.parts = .error e3) (hr3 : e3.isRateLimit = true) :
    send model request =
      (.error e3,
        [.generateContent request.parts, .sleep 2000, .generateContent request.parts,
          .sleep 2000, .generateContent request.parts]) ∧
    providerCalls (send model request).2 = 3 ∧ sleeps (send model request).2 = [2000, 2000] := by
  obtain ⟨prompt, isImage, buffer, mimetype, hparts, hsend⟩ := send_eq_retryLoop model request
  have hloop := retryLoop_backoffs model prompt isImage buffer mimetype request.parts hparts 0 2 0
    (fun i hi => by
      have : i = 0 ∨ i = 1 := by omega
      rcases this with rfl | rfl
      · exact ⟨e1, by simpa using h1, hr1⟩
      · exact ⟨e2, by simpa using h2, hr2⟩)
  obtain ⟨message, stack, rfl, -⟩ := (isRateLimit_iff e3).1 hr3
  have hlast := retryLoop_rethrow model prompt isImage buffer mimetype request.parts 0 2
    message stack hparts h3 (Or.inl rfl)
  have hall : send model request =
      (.error (.object (some message) stack),
        [.generateContent request.parts, .sleep 2000, .generateContent request.parts,
          .sleep 2000, .generateContent request.parts]) := by
    rw [hsend]
    simpa [hlast, backoffs] using hloop
  refine ⟨hall, ?_, ?_⟩ <;> simp [hall, providerCalls, sleeps]


/-- C1 at a model that is rate-limited twice and then answers. -/
theorem generateWithRetry_succeeds_on_third_attempt_witness :
    send (modelLimitedThenText 2 "total: 40") (.text "bill") =
      (.ok (some "total: 40"),
        [.generateContent (.prompt "bill"), .sleep 2000, .generateContent (.prompt "bill"),
          .sleep 2000, .generateContent (.prompt "bill")]) ∧
    providerCalls (send (modelLimitedThenText 2 "total: 40") (.text "bill")).2 = 3 ∧
    sleeps (send (modelLimitedThenText 2 "total: 40") (.text "bill")).2 = [2000, 2000] :=
  generateWithRetry_succeeds_on_third_attempt (modelLimitedThenText 2 "total: 40") (.text "bill")
    rateLimitError rateLimitError ⟨some (.returns (some "total: 40")), none, none⟩ "total: 40"
    rfl (by decide) rfl (by decide) rfl (Or.inl rfl) (by decide)

/-- C2 at a model that is always rate-limited, on an image request. -/
theorem generateWithRetry_exhausts_three_attempts_witness :
    send (modelRaising rateLimitError) (.image "bill" (zeroBuffer 3) (some "image/png")) =
      (.error rateLimitError,
        [.generateContent (.multimodal "bill" "AAAA" (some "image/png")), .sleep 2000,
          .generateContent (.multimodal "bill" "AAAA" (some "image/png")), .sleep 2000,
          .generateContent (.multimodal "bill" "AAAA" (some "image/png"))]) ∧
    providerCalls (send (modelRaising rateLimitError)
      (.image "bill" (zeroBuffer 3) (some "image/png"))).2 = 3 ∧
    sleeps (send (modelRaising rateLimitError)
      (.image "bill" (zeroBuffer 3) (some "image/png"))).2 = [2000, 2000] :=
  generateWithRetry_exhausts_three_attempts (modelRaising rateLimitError)
    (.image "bill" (zeroBuffer 3) (some "image/png")) rateLimitError rateLimitError rateLimitError
    rfl (by decide) rfl (by decide) rfl (by decide)

/-- C3, as the code has it: after a failure of a generation call that is not a
rate-limit failure, on whichever attempt, the driver makes no further call and
no further sleep and raises; it raises exactly the value the call raised when
that value carries a message string, and a `TypeError` in its place when it
carries none. -/
theorem generateWithRetry_other_failure (model : GenerativeModel)
    (request : GenerationRequest) (k : Nat) (e : Thrown) (hk : k < 3)
    (hbefore : ∀ i, i < k → ∃ ei, model.generateContent i request.parts = .error ei ∧
      ei.isRateLimit = true)
    (hcall : model.generateContent k request.parts = .error e)
    (hother : e.isRateLimit = false) :
    (send model request).2 = backoffs request.parts k ++ [.generateContent request.parts] ∧
    ((∃ message stack, e = .object (some message) stack) → (send model request).1 = .error e) ∧
    ((∀ message stack, e ≠ .object (some message) stack) →
      ∃ text, (send model request).1 = .error (typeError text)) := by
  obtain ⟨prompt, isImage, buffer, mimetype, hparts, hsend⟩ := send_eq_retryLoop model request
  obtain ⟨n, hn⟩ : ∃ n, 3 = k + (n + 1) := ⟨2 - k, by omega⟩
  have hloop := retryLoop_backoffs model prompt isImage buffer mimetype request.parts hparts n k 0
    (fun i hi => by simpa using hbefore i hi)
  rw [← hn] at hloop
  simp only [Nat.zero_add] at hloop
  rw [hsend, hloop]
  refine ⟨?_, ?_, ?_⟩
  · by_cases hmsg : ∃ message stack, e = .object (some message) stack
    · obtain ⟨message, stack, rfl⟩ := hmsg
      have hno : includes message "429" = false := by simpa [Thrown.isRateLimit] using hother
      simp [retryLoop_rethrow model prompt isImage buffer mimetype request.parts n k message stack
        hparts hcall (Or.inr hno)]
    · obtain ⟨text, htext⟩ := retryLoop_noMessage model prompt isImage buffer mimetype
        request.parts n k e hparts hcall (fun m s h => hmsg ⟨m, s, h⟩)
      simp [htext]
  · rintro ⟨message, stack, rfl⟩
    have hno : includes message "429" = false := by simpa [Thrown.isRateLimit] using hother
    simp [retryLoop_rethrow model prompt isImage buffer mimetype request.parts n k message stack
      hparts hcall (Or.inr hno)]
  · intro hmsg
    obtain ⟨text, htext⟩ := retryLoop_noMessage model prompt isImage buffer mimetype
      request.parts n k e hparts hcall hmsg
    exact ⟨text, by simp [htext]⟩

/-- C3 at a model whose first call raises a server error. -/
theorem generateWithRetry_other_failure_witness :
    (send (modelRaising serverError) (.text "bill")).2 = [.generateContent (.prompt "bill")] ∧
    (send (modelRaising serverError) (.text "bill")).1 = .error serverError :=
  have h := generateWithRetry_other_failure (modelRaising serverError) (.text "bill") 0 serverError
    (by decide) (fun i hi => absurd hi (Nat.not_lt_zero i)) rfl (by decide)
  ⟨h.1, h.2.1 ⟨_, _, rfl⟩⟩

/-- C3, as stated, fails: a generation call that raises the string "boom", a
value with no message, makes the driver raise a `TypeError`, not that value. -/
theorem generateWithRetry_other_failure_modified :
    (modelRaising (.primitive "boom")).generateContent 0 (GenerationRequest.text "bill").parts =
      .error (.primitive "boom") ∧
    (Thrown.primitive "boom").isRateLimit = false ∧
    send (modelRaising (.primitive "boom")) (.text "bill") =
      (.error (typeError "Cannot read properties of undefined (reading 'includes')"),
        [.generateContent (.prompt "bill")]) ∧
    (send (modelRaising (.primitive "boom")) (.text "bill")).1 ≠ .error (.primitive "boom") := by
  refine ⟨rfl, rfl, rfl, ?_⟩
  intro h
  have h2 : (Except.error (typeError "Cannot read properties of undefined (reading 'includes')") :
      Except Thrown (Option String)) = .error (.primitive "boom") := h
  simp [typeError] at h2

/-- C10, as the code has it: when the first generation call resolves with a
response that serialises without raising and whose accessor returns nothing or
the empty string, or raises a value other than `undefined` and `null`, or which
has no accessor and no first-candidate text, the driver returns `null` after
exactly one generation call and no sleep. -/
theorem generateWithRetry_empty_text (model : GenerativeModel) (request : GenerationRequest)
    (response : GenerationResponse)
    (hcall : model.generateContent 0 request.parts = .ok ⟨some response⟩)
    (hserial : response.stringify = none)
    (hempty : response.text = some (.returns none) ∨ response.text = some (.returns (some "")) ∨
      (∃ e, response.text = some (.throws e) ∧ e ≠ .undefined ∧ e ≠ .null) ∨
      (response.text = none ∧
        (response.candidateText = none ∨ response.candidateText = some ""))) :
    send model request = (.ok none, [.generateContent request.parts]) := by
  obtain ⟨prompt, isImage, buffer, mimetype, hparts, hsend⟩ := send_eq_retryLoop model request
  rw [hsend]
  apply retryLoop_resolved model prompt isImage buffer mimetype request.parts 2 0 _ _ hparts hcall
  rcases hempty with h | h | ⟨e, h, hu, hn⟩ | ⟨h, h2 | h2⟩
  · simp [completeAttempt, extractText, emptyResponse, hserial, h]
  · simp [completeAttempt, extractText, emptyResponse, hserial, h]
  · cases e with
    | undefined => exact absurd rfl hu
    | null => exact absurd rfl hn
    | primitive t =>
      simp [completeAttempt, extractText, emptyResponse, hserial, h, Thrown.readMessage]
    | object m st =>
      simp [completeAttempt, extractText, emptyResponse, hserial, h, Thrown.readMessage]
  · simp [completeAttempt, extractText, emptyResponse, hserial, h, h2]
  · simp [completeAttempt, extractText, emptyResponse, hserial, h, h2]

/-- C10 at a response whose accessor raises an error object. -/
theorem generateWithRetry_empty_text_witness :
    send (modelResolving ⟨some ⟨some (.throws serverError), some "ignored", none⟩⟩)
        (.text "bill") =
      (.ok none, [.generateContent (.prompt "bill")]) :=
  generateWithRetry_empty_text
    (modelResolving ⟨some ⟨some (.throws serverError), some "ignored", none⟩⟩)
    (.text "bill") ⟨some (.throws serverError), some "ignored", none⟩ rfl rfl
    (Or.inr (Or.inr (Or.inl ⟨serverError, rfl, by decide, by decide⟩)))

/-- C10, as stated, fails twice over: when the accessor raises `null`, the inner
handler's read of the message raises; and when the accessor returns the empty
string but the response cannot be serialised for the log, that raise leaves the
`try`. Either way the driver raises a `TypeError` after one generation call and
no sleep, instead of returning `null`. -/
theorem generateWithRetry_empty_text_raises :
    send (modelResolving ⟨some ⟨some (.throws .null), none, none⟩⟩) (.text "bill") =
      (.error (typeError "Cannot read properties of null (reading 'message')"),
        [.generateContent (.prompt "bill")]) ∧
    (send (modelResolving ⟨some ⟨some (.throws .null), none, none⟩⟩) (.text "bill")).1 ≠
      .ok none ∧
    send (modelResolving ⟨some ⟨some (.returns (some "")), none, some circularError⟩⟩)
        (.text "bill") =
      (.error circularError, [.generateContent (.prompt "bill")]) ∧
    (send (modelResolving ⟨some ⟨some (.returns (some "")), none, some circularError⟩⟩)
      (.text "bill")).1 ≠ .ok none := by
  refine ⟨rfl, ?_, rfl, ?_⟩
  · intro h
    have h2 : (Except.error (typeError "Cannot read properties of null (reading 'message')") :
        Except Thrown (Option String)) = .ok none := h
    simp at h2
  · intro h
    have h2 : (Except.error circularError : Except Thrown (Option String)) = .ok none := h
    simp at h2

/-! ## Brace-span extraction -/

theorem matchStarClose_eq (cs : List Char) :
    matchStarClose cs = (lastIndexOf '}' cs).map (fun j => cs.take (j + 1)) := by
  induction cs with
  | nil => rfl
  | cons c cs ih =>
    simp only [matchStarClose, lastIndexOf, ih]
    cases h : lastIndexOf '}' cs with
    | none => by_cases hc : c = '}' <;> simp [hc]
    | some j => simp

theorem firstMatchChars_none (cs : List Char) (h : lastIndexOf '}' cs = none) :
    firstMatchChars cs = none := by
  induction cs with
  | nil => rfl
  | cons c cs ih =>
    simp only [lastIndexOf] at h
    cases hl : lastIndexOf '}' cs with
    | some j => simp [hl] at h
    | none =>
      simp only [firstMatchChars, matchStarClose_eq, hl, ih hl]
      simp

theorem braceSpan_cons_other (c : Char) (cs : List Char) (hc : c ≠ '{') :
    braceSpan (c :: cs) = braceSpan cs := by
  simp only [braceSpan, firstIndexOf, lastIndexOf, if_neg hc]
  cases hf : firstIndexOf '{' cs with
  | none => simp
  | some i =>
    cases hl : lastIndexOf '}' cs with
    | none => by_cases h2 : c = '}' <;> simp [h2]
    | some j =>
      simp only [Option.map_some', Nat.add_lt_add_iff_right, List.drop_succ_cons]
      have : j + 1 - (i + 1) + 1 = j - i + 1 := by omega
      rw [this]

/-- The first match of the pattern is the brace span of the specification. -/
theorem firstMatchChars_eq_braceSpan (cs : List Char) : firstMatchChars cs = braceSpan cs := by
  induction cs with
  | nil => rfl
  | cons c cs ih =>
    by_cases hc : c = '{'
    · subst hc
      simp only [firstMatchChars, if_true, matchStarClose_eq, braceSpan, firstIndexOf, lastIndexOf]
      cases hl : lastIndexOf '}' cs with
      | none => simp [firstMatchChars_none cs hl]
      | some j => simp
    · rw [braceSpan_cons_other c cs hc, ← ih]
      simp [firstMatchChars, hc]

theorem firstMatchChars_head (cs matched : List Char) (h : firstMatchChars cs = some matched) :
    ∃ rest, matched = '{' :: rest := by
  induction cs with
  | nil => simp [firstMatchChars] at h
  | cons c cs ih =>
    by_cases hc : c = '{'
    · subst hc
      simp only [firstMatchChars, if_true] at h
      cases hm : matchStarClose cs with
      | none => rw [hm] at h; exact ih h
      | some m => rw [hm] at h; exact ⟨m, by simpa using h.symm⟩
    · simp only [firstMatchChars, if_neg hc] at h
      exact ih h


theorem matchBraceSpan_head (text span : String) (h : matchBraceSpan text = some span) :
    ∃ rest, span.toList = '{' :: rest := by
  simp only [matchBraceSpan, Option.map_eq_some'] at h
  obtain ⟨matched, hm, rfl⟩ := h
  exact firstMatchChars_head text.toList matched hm

theorem matchBraceSpan_nonempty (text span : String) (h : matchBraceSpan text = some span) :
    span.isEmpty = false ∧ 0 < text.length := by
  obtain ⟨rest, hrest⟩ := matchBraceSpan_head text span h
  constructor
  · rcases span with ⟨cs⟩
    simp only [String.toList] at hrest
    subst hrest
    rfl
  · rcases text with ⟨cs⟩
    cases cs with
    | nil => simp [matchBraceSpan, firstMatchChars] at h
    | cons c cs => simp [String.length]

/-! ## `JSON.parse` on a brace span -/

theorem parseMembers_object (parseItem : List Char → Option (JsonValue × List Char)) :
    ∀ (fuel : Nat) (cs : List Char) (acc : List (String × JsonValue)) (v : JsonValue)
      (rest : List Char), parseMembers parseItem fuel cs acc = some (v, rest) →
      ∃ members, v = .object members := by
  intro fuel
  induction fuel with
  | zero => intro cs acc v rest h; simp [parseMembers] at h
  | succ fuel ih =>
    intro cs acc v rest h
    simp only [parseMembers] at h
    split at h
    · split at h
      · exact absurd h (by simp)
      · split at h
        · split at h
          · exact absurd h (by simp)
          · split at h
            · exact ih _ _ _ _ h
            · simp only [Option.some.injEq, Prod.mk.injEq] at h
              exact ⟨_, h.1.symm⟩
            · exact absurd h (by simp)
        · exact absurd h (by simp)
    · exact absurd h (by simp)

theorem parseValue_brace (fuel : Nat) (rest : List Char) :
    parseValue (fuel + 1) ('{' :: rest) =
      match skipWhitespace rest with
      | '}' :: rest1 => some (.object [], rest1)
      | rest1 => parseMembers (parseValue fuel) fuel rest1 [] := by
  rfl

/-- A text that starts with an opening brace parses to an object or not at
all. -/
theorem JSON_parse_object (text : String) (rest : List Char) (v : JsonValue)
    (hhead : text.toList = '{' :: rest) (h : JSON.parse text = some v) :
    ∃ members, v = .object members := by
  unfold JSON.parse at h
  rw [hhead, Nat.succ_eq_add_one, parseValue_brace] at h
  split at h
  · rename_i v1 rest1 hv
    split at h
    · simp only [Option.some.injEq] at h
      subst h
      split at hv
      · simp only [Option.some.injEq, Prod.mk.injEq] at hv
        exact ⟨_, hv.1.symm⟩
      · exact parseMembers_object _ _ _ _ _ _ hv
    · exact absurd h (by simp)
  · exact absurd h (by simp)


/-- C5: the candidate selected by the first match of the pattern is the
substring from the first opening brace to the last closing brace, inclusive,
when the latter lies after the former, and there is no candidate otherwise; the
sample text with a nested object yields its span, parsed to the mapping, and a
text without braces yields no candidate and `null` from the extraction. -/
theorem matchBraceSpan_first_to_last_brace (text : String) :
    matchBraceSpan text = (braceSpan text.toList).map String.mk ∧
    matchBraceSpan "prefix \x7b\"a\":1,\"b\":\x7b\"c\":2\x7d\x7d suffix" =
      some "\x7b\"a\":1,\"b\":\x7b\"c\":2\x7d\x7d" ∧
    parseOrFallback (some "prefix \x7b\"a\":1,\"b\":\x7b\"c\":2\x7d\x7d suffix") [] =
      (.parsed (.object [("a", .number 1 0), ("b", .object [("c", .number 2 0)])]), []) ∧
    matchBraceSpan "no braces here" = none ∧
    imageResult (some "no braces here") = .ok .null := by
  refine ⟨?_, by decide, by rfl, by decide, by rfl⟩
  simp [matchBraceSpan, firstMatchChars_eq_braceSpan]

/-! ## The error log and the operations -/

theorem readMessage_error (e raised : Thrown) (h : e.readMessage = .error raised) :
    ∃ message stack, raised = .object (some message) stack := by
  cases e with
  | undefined => exact ⟨_, _, by simpa [Thrown.readMessage, typeError] using h.symm⟩
  | null => exact ⟨_, _, by simpa [Thrown.readMessage, typeError] using h.symm⟩
  | primitive t => simp [Thrown.readMessage] at h
  | object m s => simp [Thrown.readMessage] at h

/-- Whatever the driver raises is an object with a message string. -/
theorem retryLoop_raises_object (model : GenerativeModel) (prompt : String) (isImage : Bool)
    (buffer : Option Buffer) (mimetype : Option String) :
    ∀ (retries calls : Nat) (e : Thrown) (effects : List Effect),
      retryLoop model prompt isImage buffer mimetype retries calls = (.error e, effects) →
      ∃ message stack, e = .object (some message) stack := by
  intro retries
  induction retries with
  | zero => intro calls e effects h; simp [retryLoop] at h
  | succ retries ih =>
    intro calls e effects h
    simp only [retryLoop] at h
    split at h
    · simp at h
    · rename_i err effs calls1 hatt
      split at h
      · rename_i raised hread
        simp only [Prod.mk.injEq, Except.error.injEq] at h
        obtain ⟨m, s, hm⟩ := readMessage_error err raised hread
        exact ⟨m, s, h.1 ▸ hm⟩
      · simp only [Prod.mk.injEq, Except.error.injEq] at h
        exact ⟨_, _, by rw [← h.1]; rfl⟩
      · rename_i message hread
        split at h
        · simp only [Prod.mk.injEq] at h
          exact ih calls1 e _ (Prod.ext h.1 rfl)
        · simp only [Prod.mk.injEq, Except.error.injEq] at h
          cases err with
          | object m s =>
            simp only [Thrown.readMessage, Except.ok.injEq] at hread
            exact ⟨message, s, by rw [← h.1, hread]⟩
          | undefined => simp [Thrown.readMessage] at hread
          | null => simp [Thrown.readMessage] at hread
          | primitive t => simp [Thrown.readMessage] at hread

theorem logError_object (world : World) (msg : String) (message stack : Option String) :
    (logError world msg (.object message stack)).1 = .ok () := by
  simp only [logError, Thrown.readMessage]
  split <;> rfl

theorem catchAndLog_object (world : World) (label : String) (message stack : Option String)
    (effects : List Effect) :
    catchAndLog world label (.object message stack) effects =
      (.ok .null, effects ++ (logError world label (.object message stack)).2) := by
  have h := logError_object world label message stack
  simp only [catchAndLog]
  split
  · rename_i raised logged heq
    rw [heq] at h
    simp at h
  · rename_i u logged heq
    rw [heq]

theorem catchAndLog_primitive (world : World) (label text : String) (effects : List Effect) :
    catchAndLog world label (.primitive text) effects =
      (.ok .null, effects ++ (logError world label (.primitive text)).2) := by
  have h : (logError world label (.primitive text)).1 = .ok () := by
    simp only [logError, Thrown.readMessage]
    split <;> rfl
  simp only [catchAndLog]
  split
  · rename_i raised logged heq
    rw [heq] at h
    simp at h
  · rename_i u logged heq
    rw [heq]

/-- The error handler of an operation returns `null` for every value other
than `undefined` and `null`. -/
theorem catchAndLog_returns_null (world : World) (label : String) (err : Thrown)
    (effects : List Effect) (hu : err ≠ .undefined) (hn : err ≠ .null) :
    catchAndLog world label err effects =
      (.ok .null, effects ++ (logError world label err).2) := by
  cases err with
  | undefined => exact absurd rfl hu
  | null => exact absurd rfl hn
  | primitive t => exact catchAndLog_primitive world label t effects
  | object m s => exact catchAndLog_object world label m s effects

theorem generateWithRetry_raises_object (model : GenerativeModel) (prompt : String)
    (isImage : Bool) (buffer : Option Buffer) (mimetype : Option String) (e : Thrown)
    (effects : List Effect)
    (h : generateWithRetry model prompt isImage buffer mimetype = (.error e, effects)) :
    e ≠ .undefined ∧ e ≠ .null := by
  obtain ⟨m, s, rfl⟩ := retryLoop_raises_object model prompt isImage buffer mimetype 3 0 e effects h
  exact ⟨by simp, by simp⟩

theorem parseOrFallback_shape (resultText : Option String) (warn : List Effect) :
    (parseOrFallback resultText warn).1 = .null ∨
    (∃ text, (parseOrFallback resultText warn).1 = .raw text) ∨
    (∃ members, (parseOrFallback resultText warn).1 = .parsed (.object members)) := by
  cases resultText with
  | none => exact Or.inl rfl
  | some text =>
    simp only [parseOrFallback]
    split
    · exact Or.inr (Or.inl ⟨text, rfl⟩)
    · rename_i jsonStr hspan
      split
      · exact Or.inr (Or.inl ⟨text, rfl⟩)
      · split
        · rename_i value hvalue
          obtain ⟨rest, hrest⟩ := matchBraceSpan_head text jsonStr hspan
          obtain ⟨members, rfl⟩ := JSON_parse_object jsonStr rest value hrest hvalue
          exact Or.inr (Or.inr ⟨members, rfl⟩)
        · exact Or.inr (Or.inl ⟨text, rfl⟩)

theorem imageResult_shape (resultText : Option String) :
    imageResult resultText = .ok .null ∨
    (∃ members, imageResult resultText = .ok (.parsed (.object members))) ∨
    (∃ message stack, imageResult resultText = .error (.object message stack)) := by
  cases resultText with
  | none => exact Or.inl rfl
  | some text =>
    simp only [imageResult]
    split
    · split
      · exact Or.inl rfl
      · rename_i jsonStr hspan
        split
        · exact Or.inl rfl
        · split
          · exact Or.inr (Or.inr ⟨_, _, rfl⟩)
          · exact Or.inr (Or.inr ⟨_, _, rfl⟩)
          · rename_i parsed hnot hvalue
            obtain ⟨rest, hrest⟩ := matchBraceSpan_head text jsonStr hspan
            obtain ⟨members, rfl⟩ := JSON_parse_object jsonStr rest parsed hrest hvalue
            exact Or.inr (Or.inl ⟨members, rfl⟩)
    · exact Or.inl rfl


theorem textOperation_shape (world : World) (label : String)
    (run : Except Thrown (Option String) × List Effect) (warn : List Effect)
    (hrun : ∀ e effects, run = (.error e, effects) → e ≠ .undefined ∧ e ≠ .null) :
    ∃ r, ((match run with
        | (.error err, effects) =>
          catchAndLog world label err (.getGenerativeModel MODEL_NAME "v1beta" :: effects)
        | (.ok resultText, effects) =>
          (.ok (parseOrFallback resultText warn).1,
            .getGenerativeModel MODEL_NAME "v1beta" :: effects ++
              (parseOrFallback resultText warn).2)) :
        Except Thrown AnalysisResult × List Effect).1 = .ok r ∧
      (r = .null ∨ (∃ t, r = .raw t) ∨ ∃ members, r = .parsed (.object members)) := by
  rcases run with ⟨outcome, effects⟩
  cases outcome with
  | error err =>
    obtain ⟨hu, hn⟩ := hrun err effects rfl
    refine ⟨AnalysisResult.null, ?_, Or.inl rfl⟩
    simp only [catchAndLog_returns_null world label err _ hu hn]
  | ok resultText =>
    exact ⟨_, rfl, parseOrFallback_shape resultText warn⟩

/-- C4, as the code has it: provided model construction does not raise
`undefined` or `null`, each operation completes without raising, whatever the
input, the client state, the provider and the log file do; the text operations
yield a parsed JSON mapping, the raw text or `null`, the image operation a
parsed JSON mapping or `null`. -/
theorem operations_do_not_raise (world : World) (text prompt : String)
    (buffer : Option Buffer) (mimetype : Option String)
    (hmodel : ∀ client e, world.genAI = some client → client.getGenerativeModel = .error e →
      e ≠ .undefined ∧ e ≠ .null) :
    (∃ r, (analyzeBillText world text).1 = .ok r ∧
      (r = .null ∨ (∃ t, r = .raw t) ∨ ∃ members, r = .parsed (.object members))) ∧
    (∃ r, (analyzeWithGemini world prompt).1 = .ok r ∧
      (r = .null ∨ (∃ t, r = .raw t) ∨ ∃ members, r = .parsed (.object members))) ∧
    (∃ r, (analyzeBillImage world buffer mimetype).1 = .ok r ∧
      (r = .null ∨ ∃ members, r = .parsed (.object members))) := by
  refine ⟨?_, ?_, ?_⟩
  · unfold analyzeBillText
    cases hg : world.genAI with
    | none => exact ⟨.null, by simp [notInitialized, catchAndLog_object], Or.inl rfl⟩
    | some client =>
      cases hm : client.getGenerativeModel with
      | error err =>
        obtain ⟨hu, hn⟩ := hmodel client err hg hm
        exact ⟨.null, by simp [hm, catchAndLog_returns_null world _ err _ hu hn], Or.inl rfl⟩
      | ok model =>
        simp only [hm]
        exact textOperation_shape world "Bill Text AI error"
          (generateWithRetry model (billTextPrompt text) false none none) _
          (fun e effects h => generateWithRetry_raises_object model _ _ _ _ e effects h)
  · unfold analyzeWithGemini
    cases hg : world.genAI with
    | none => exact ⟨.null, by simp [notInitialized, catchAndLog_object], Or.inl rfl⟩
    | some client =>
      cases hm : client.getGenerativeModel with
      | error err =>
        obtain ⟨hu, hn⟩ := hmodel client err hg hm
        exact ⟨.null, by simp [hm, catchAndLog_returns_null world _ err _ hu hn], Or.inl rfl⟩
      | ok model =>
        simp only [hm]
        exact textOperation_shape world "Gemini General AI error"
          (generateWithRetry model prompt false none none) _
          (fun e effects h => generateWithRetry_raises_object model _ _ _ _ e effects h)
  · unfold analyzeBillImage
    cases buffer with
    | none => exact ⟨.null, rfl, Or.inl rfl⟩
    | some bytes =>
      by_cases hsize : bytes.length < 100
      · exact ⟨.null, by simp [hsize], Or.inl rfl⟩
      · simp only [hsize, if_false]
        cases hg : world.genAI with
        | none => exact ⟨.null, by simp [notInitialized, catchAndLog_object], Or.inl rfl⟩
        | some client =>
          cases hm : client.getGenerativeModel with
          | error err =>
            obtain ⟨hu, hn⟩ := hmodel client err hg hm
            exact ⟨.null, by simp [hm, catchAndLog_returns_null world _ err _ hu hn], Or.inl rfl⟩
          | ok model =>
            simp only [hm]
            rcases hrun : generateWithRetry model billImagePrompt true (some bytes) mimetype with
              ⟨outcome, effects⟩
            cases outcome with
            | error err =>
              obtain ⟨hu, hn⟩ := generateWithRetry_raises_object model _ _ _ _ err effects hrun
              exact ⟨.null, by simp [hrun, catchAndLog_returns_null world _ err _ hu hn],
                Or.inl rfl⟩
            | ok resultText =>
              rcases imageResult_shape resultText with h | ⟨members, h⟩ | ⟨m, s, h⟩
              · exact ⟨.null, by simp [hrun, h], Or.inl rfl⟩
              · exact ⟨_, by simp [hrun, h], Or.inr ⟨members, rfl⟩⟩
              · exact ⟨.null, by simp [hrun, h, catchAndLog_object], Or.inl rfl⟩


/-- C4 at a world whose log file cannot be written and whose generation calls raise `null`. -/
theorem operations_do_not_raise_witness :
    (∃ r, (analyzeBillText (worldFailingLog (some ⟨.ok (modelRaising .null)⟩)) "bill").1 = .ok r ∧
      (r = .null ∨ (∃ t, r = .raw t) ∨ ∃ members, r = .parsed (.object members))) ∧
    (∃ r, (analyzeWithGemini (worldFailingLog (some ⟨.ok (modelRaising .null)⟩)) "task").1 =
        .ok r ∧
      (r = .null ∨ (∃ t, r = .raw t) ∨ ∃ members, r = .parsed (.object members))) ∧
    (∃ r, (analyzeBillImage (worldFailingLog (some ⟨.ok (modelRaising .null)⟩))
        (some (zeroBuffer 100)) (some "image/png")).1 = .ok r ∧
      (r = .null ∨ ∃ members, r = .parsed (.object members))) :=
  operations_do_not_raise (worldFailingLog (some ⟨.ok (modelRaising .null)⟩)) "bill" "task"
    (some (zeroBuffer 100)) (some "image/png")
    (fun client e hg hm => by
      simp only [worldFailingLog, Option.some.injEq] at hg
      subst hg
      simp at hm)

/-- C4, as stated, fails: when model construction raises `null`, the handler's
read of the message raises inside `logError`, and each operation raises a
`TypeError` to its caller. -/
theorem operations_raise_when_construction_raises_null :
    (analyzeBillText (worldWith (some ⟨.error .null⟩)) "bill").1 =
      .error (typeError "Cannot read properties of null (reading 'message')") ∧
    (analyzeWithGemini (worldWith (some ⟨.error .null⟩)) "task").1 =
      .error (typeError "Cannot read properties of null (reading 'message')") ∧
    (analyzeBillImage (worldWith (some ⟨.error .null⟩)) (some (zeroBuffer 100))
      (some "image/png")).1 =
      .error (typeError "Cannot read properties of null (reading 'message')") :=
  ⟨rfl, rfl, rfl⟩

theorem logAppends_append (xs ys : List Effect) :
    logAppends (xs ++ ys) = logAppends xs ++ logAppends ys := by
  induction xs with
  | nil => rfl
  | cons x xs ih => cases x <;> simp [logAppends, ih]

theorem warnings_append (xs ys : List Effect) :
    warnings (xs ++ ys) = warnings xs ++ warnings ys := by
  induction xs with
  | nil => rfl
  | cons x xs ih => cases x <;> simp [warnings, ih]

theorem logError_effects (world : World) (label : String) (message stack : Option String) :
    logAppends (logError world label (.object message stack)).2 =
      [(logRecord world label message stack,
        appendSucceeds world (logRecord world label message stack))] ∧
    warnings (logError world label (.object message stack)).2 = [] ∧
    providerCalls (logError world label (.object message stack)).2 = 0 ∧
    modelConstructions (logError world label (.object message stack)).2 = 0 := by
  simp only [logError, Thrown.readMessage, Thrown.readStack, appendSucceeds, logRecord]
  split <;> rename_i h <;>
    simp [h, logAppends, warnings, providerCalls, modelConstructions]

/-- The driver only calls the provider and sleeps. -/
theorem retryLoop_effects (model : GenerativeModel) (prompt : String) (isImage : Bool)
    (buffer : Option Buffer) (mimetype : Option String) :
    ∀ (retries calls : Nat),
      logAppends (retryLoop model prompt isImage buffer mimetype retries calls).2 = [] ∧
      warnings (retryLoop model prompt isImage buffer mimetype retries calls).2 = [] ∧
      modelConstructions (retryLoop model prompt isImage buffer mimetype retries calls).2 = 0 := by
  intro retries
  induction retries with
  | zero => intro calls; simp [retryLoop, logAppends, warnings, modelConstructions]
  | succ retries ih =>
    intro calls
    have hatt : ∃ parts, (attempt model prompt isImage buffer mimetype calls).2.1 = [] ∨
        (attempt model prompt isImage buffer mimetype calls).2.1 = [.generateContent parts] := by
      simp only [attempt]
      split
      · exact ⟨.prompt "", Or.inl rfl⟩
      · rename_i parts _
        split
        · exact ⟨parts, Or.inr rfl⟩
        · exact ⟨parts, Or.inr rfl⟩
    obtain ⟨parts, hatt⟩ := hatt
    have hpre : logAppends (attempt model prompt isImage buffer mimetype calls).2.1 = [] ∧
        warnings (attempt model prompt isImage buffer mimetype calls).2.1 = [] ∧
        modelConstructions (attempt model prompt isImage buffer mimetype calls).2.1 = 0 := by
      rcases hatt with h | h <;> simp [h, logAppends, warnings, modelConstructions]
    simp only [retryLoop]
    split
    · rename_i value effects c heq
      rw [heq] at hpre
      exact hpre
    · rename_i err effects calls1 heq
      rw [heq] at hpre
      simp only at hpre
      split
      · exact hpre
      · exact hpre
      · split
        · obtain ⟨i1, i2, i3⟩ := ih calls1
          have hmc : ∀ xs ys : List Effect, modelConstructions xs = 0 →
              modelConstructions ys = 0 → modelConstructions (xs ++ .sleep 2000 :: ys) = 0 := by
            intro xs ys hx hy
            induction xs with
            | nil => simpa [modelConstructions] using hy
            | cons x xs ihx =>
              cases x <;> simp_all [modelConstructions]
          refine ⟨?_, ?_, hmc _ _ hpre.2.2 i3⟩
          · simp [logAppends_append, hpre.1, logAppends, i1]
          · simp [warnings_append, hpre.2.1, warnings, i2]
        · exact hpre


/-- C6, as the code has it: with the client initialized, for every buffer of at
least 100 bytes, every media type and every provider text whose brace span
(first opening brace to last closing brace) is valid JSON, `analyzeBillImage`
returns that span parsed, an object and not `null`. -/
theorem analyzeBillImage_returns_parsed_span (world : World) (client : GoogleGenerativeAI)
    (model : GenerativeModel) (buffer : Buffer) (mimetype : Option String)
    (text span : String) (value : JsonValue) (effects : List Effect)
    (hclient : world.genAI = some client) (hmodel : client.getGenerativeModel = .ok model)
    (hsize : 100 ≤ buffer.length)
    (hgen : generateWithRetry model billImagePrompt true (some buffer) mimetype =
      (.ok (some text), effects))
    (hspan : matchBraceSpan text = some span) (hvalid : JSON.parse span = some value) :
    analyzeBillImage world (some buffer) mimetype =
      (.ok (.parsed value), .getGenerativeModel MODEL_NAME "v1beta" :: effects) ∧
    ∃ members, value = .object members := by
  obtain ⟨rest, hrest⟩ := matchBraceSpan_head text span hspan
  obtain ⟨members, rfl⟩ := JSON_parse_object span rest value hrest hvalid
  obtain ⟨hne, hlen⟩ := matchBraceSpan_nonempty text span hspan
  refine ⟨?_, members, rfl⟩
  have hsz : ¬ buffer.length < 100 := by omega
  simp [analyzeBillImage, hsz, hclient, hmodel, hgen, imageResult, hlen, hspan, hne, hvalid]

/-- C6 at a provider text that wraps an object with a numeric `totalAmount` in prose. -/
theorem analyzeBillImage_returns_parsed_span_witness :
    analyzeBillImage (worldAnswering "Your bill: \x7b\"totalAmount\": 12.5\x7d") (some (zeroBuffer 100))
        (some "image/png") =
      (.ok (.parsed (.object [("totalAmount", .number 125 (-1))])),
        .getGenerativeModel MODEL_NAME "v1beta" ::
          [.generateContent (.multimodal billImagePrompt (zeroBuffer 100).toBase64
            (some "image/png"))]) ∧
    ∃ members, JsonValue.object [("totalAmount", .number 125 (-1))] = .object members :=
  analyzeBillImage_returns_parsed_span (worldAnswering "Your bill: \x7b\"totalAmount\": 12.5\x7d")
    ⟨.ok (modelResolving (textResponse "Your bill: \x7b\"totalAmount\": 12.5\x7d"))⟩
    (modelResolving (textResponse "Your bill: \x7b\"totalAmount\": 12.5\x7d"))
    (zeroBuffer 100) (some "image/png") "Your bill: \x7b\"totalAmount\": 12.5\x7d"
    "\x7b\"totalAmount\": 12.5\x7d" (.object [("totalAmount", .number 125 (-1))])
    [.generateContent (.multimodal billImagePrompt (zeroBuffer 100).toBase64 (some "image/png"))]
    rfl rfl (by simp [zeroBuffer]) rfl (by decide) (by rfl)

/-- C6, as stated, fails: a provider text holding two JSON objects contains a
valid JSON object, yet its brace span runs over both and does not parse, and
`analyzeBillImage` returns `null`. -/
theorem analyzeBillImage_two_objects_null :
    includes "\x7b\"a\":1\x7d \x7b\"b\":2\x7d" "\x7b\"a\":1\x7d" = true ∧
    JSON.parse "\x7b\"a\":1\x7d" = some (.object [("a", .number 1 0)]) ∧
    (analyzeBillImage (worldAnswering "\x7b\"a\":1\x7d \x7b\"b\":2\x7d") (some (zeroBuffer 100))
      (some "image/png")).1 = .ok .null :=
  ⟨by decide, by rfl, by rfl⟩


theorem catchAndLog_notInitialized (world : World) (label : String) :
    catchAndLog world label notInitialized [] =
      (.ok .null, (logError world label notInitialized).2) := by
  simpa [notInitialized] using
    catchAndLog_object world label (some "GenAI client not initialized.")
      (some "Error: GenAI client not initialized.") []

theorem logError_notInitialized (world : World) (label : String) :
    logAppends (logError world label notInitialized).2 =
      [(initializationRecord world label,
        appendSucceeds world (initializationRecord world label))] ∧
    warnings (logError world label notInitialized).2 = [] ∧
    providerCalls (logError world label notInitialized).2 = 0 ∧
    modelConstructions (logError world label notInitialized).2 = 0 :=
  logError_effects world label (some "GenAI client not initialized.")
    (some "Error: GenAI client not initialized.")

theorem catchAndLog_effects (world : World) (label : String) (err : Thrown)
    (effects : List Effect) :
    (catchAndLog world label err effects).2 = effects ++ (logError world label err).2 := by
  simp only [catchAndLog]
  split <;> rename_i heq <;> simp [heq]

/-- An iteration of the loop that can build its request starts with the
generation call. -/
theorem retryLoop_first_effect (model : GenerativeModel) (prompt : String) (isImage : Bool)
    (buffer : Option Buffer) (mimetype : Option String) (parts : Parts)
    (hparts : buildParts prompt isImage buffer mimetype = .ok parts) (retries calls : Nat) :
    ∃ rest, (retryLoop model prompt isImage buffer mimetype (retries + 1) calls).2 =
      .generateContent parts :: rest := by
  obtain ⟨x, hx⟩ : ∃ x, attempt model prompt isImage buffer mimetype calls =
      (x, [.generateContent parts], calls + 1) := by
    simp only [attempt, hparts]
    split
    · exact ⟨_, rfl⟩
    · exact ⟨_, rfl⟩
  simp only [retryLoop, hx]
  cases x with
  | ok value => exact ⟨[], rfl⟩
  | error err =>
    simp only
    split
    · exact ⟨[], rfl⟩
    · exact ⟨[], rfl⟩
    · split
      · exact ⟨_, rfl⟩
      · exact ⟨[], rfl⟩

/-- With a present buffer of at least 100 bytes and an initialized client, the
image operation starts by constructing the model, and once the model is
constructed it issues the generation call. -/
theorem analyzeBillImage_constructs_model (world : World) (client : GoogleGenerativeAI)
    (bytes : Buffer) (mimetype : Option String) (hclient : world.genAI = some client)
    (hsize : ¬ bytes.length < 100) :
    ∃ rest, (analyzeBillImage world (some bytes) mimetype).2 =
        .getGenerativeModel MODEL_NAME "v1beta" :: rest ∧
      ∀ model, client.getGenerativeModel = .ok model →
        ∃ rest2, rest = .generateContent (.multimodal billImagePrompt bytes.toBase64 mimetype) ::
          rest2 := by
  simp only [analyzeBillImage, hsize, if_false, hclient]
  cases hm : client.getGenerativeModel with
  | error err =>
    exact ⟨(logError world "Bill Image AI error" err).2, by simp [catchAndLog_effects],
      fun model h => by simp at h⟩
  | ok model =>
    simp only
    obtain ⟨rest2, hrest2⟩ := retryLoop_first_effect model billImagePrompt true (some bytes)
      mimetype (.multimodal billImagePrompt bytes.toBase64 mimetype) (by simp [buildParts]) 2 0
    rcases hrun : generateWithRetry model billImagePrompt true (some bytes) mimetype with
      ⟨outcome, effects⟩
    have heff : effects =
        .generateContent (.multimodal billImagePrompt bytes.toBase64 mimetype) :: rest2 := by
      have := hrest2
      rw [show retryLoop model billImagePrompt true (some bytes) mimetype (2 + 1) 0 =
        generateWithRetry model billImagePrompt true (some bytes) mimetype from rfl, hrun] at this
      exact this
    subst heff
    cases outcome with
    | error err =>
      exact ⟨.generateContent (.multimodal billImagePrompt bytes.toBase64 mimetype) ::
        (rest2 ++ (logError world "Bill Image AI error" err).2),
        by simp [catchAndLog_effects], fun m _ => ⟨_, rfl⟩⟩
    | ok resultText =>
      simp only
      split
      · exact ⟨_, rfl, fun m _ => ⟨_, rfl⟩⟩
      · rename_i err _
        exact ⟨.generateContent (.multimodal billImagePrompt bytes.toBase64 mimetype) ::
          (rest2 ++ (logError world "Bill Image AI error" err).2),
          by simp [catchAndLog_effects], fun m _ => ⟨_, rfl⟩⟩


/-- C7, as the code has it: `analyzeBillImage` rejects the input at validation
(returns `null` with no provider call, no model construction and no error-log
append) if and only if the buffer is absent or shorter than 100 bytes; a
50-byte buffer is rejected with no effect at all; a buffer of exactly 100 bytes
passes validation and reaches the client check, which logs the initialization
error when the client is uninitialized and otherwise constructs the model and,
once the model is constructed, issues the generation call. -/
theorem analyzeBillImage_validation (world : World) (buffer : Option Buffer)
    (mimetype : Option String) :
    (((analyzeBillImage world buffer mimetype).1 = .ok .null ∧
        providerCalls (analyzeBillImage world buffer mimetype).2 = 0 ∧
        modelConstructions (analyzeBillImage world buffer mimetype).2 = 0 ∧
        logAppends (analyzeBillImage world buffer mimetype).2 = []) ↔
      (buffer = none ∨ ∃ bytes, buffer = some bytes ∧ bytes.length < 100)) ∧
    (∀ bytes, buffer = some bytes → bytes.length = 50 →
      analyzeBillImage world buffer mimetype = (.ok .null, [])) ∧
    (∀ bytes, buffer = some bytes → bytes.length = 100 → world.genAI = none →
      logAppends (analyzeBillImage world buffer mimetype).2 =
        [(initializationRecord world "Bill Image AI error",
          appendSucceeds world (initializationRecord world "Bill Image AI error"))]) ∧
    (∀ bytes client, buffer = some bytes → bytes.length = 100 → world.genAI = some client →
      ∃ rest, (analyzeBillImage world buffer mimetype).2 =
          .getGenerativeModel MODEL_NAME "v1beta" :: rest ∧
        ∀ model, client.getGenerativeModel = .ok model →
          ∃ rest2, rest =
            .generateContent (.multimodal billImagePrompt bytes.toBase64 mimetype) :: rest2) := by
  refine ⟨⟨?_, ?_⟩, ?_, ?_, ?_⟩
  · rintro ⟨-, -, hcons, hlog⟩
    cases buffer with
    | none => exact Or.inl rfl
    | some bytes =>
      by_cases hsize : bytes.length < 100
      · exact Or.inr ⟨bytes, rfl, hsize⟩
      · exfalso
        cases hg : world.genAI with
        | none =>
          have h : analyzeBillImage world (some bytes) mimetype =
              catchAndLog world "Bill Image AI error" notInitialized [] := by
            simp [analyzeBillImage, hsize, hg]
          rw [h, catchAndLog_notInitialized,
            (logError_notInitialized world "Bill Image AI error").1] at hlog
          simp at hlog
        | some client =>
          obtain ⟨rest, hrest, -⟩ :=
            analyzeBillImage_constructs_model world client bytes mimetype hg hsize
          rw [hrest] at hcons
          simp [modelConstructions] at hcons
  · rintro (rfl | ⟨bytes, rfl, hsize⟩)
    · simp [analyzeBillImage, providerCalls, modelConstructions, logAppends]
    · simp [analyzeBillImage, hsize, providerCalls, modelConstructions, logAppends]
  · rintro bytes rfl hlen
    simp [analyzeBillImage, hlen]
  · rintro bytes rfl hlen hg
    have h : analyzeBillImage world (some bytes) mimetype =
        catchAndLog world "Bill Image AI error" notInitialized [] := by
      simp [analyzeBillImage, hlen, hg]
    rw [h, catchAndLog_notInitialized]
    exact (logError_notInitialized world "Bill Image AI error").1
  · rintro bytes client rfl hlen hg
    exact analyzeBillImage_constructs_model world client bytes mimetype hg (by omega)

/-- C7 at a 50-byte and a 100-byte buffer with an initialized client. -/
theorem analyzeBillImage_validation_witness :
    analyzeBillImage (worldAnswering "ok") (some (zeroBuffer 50)) (some "image/png") =
      (.ok .null, []) ∧
    ∃ rest, (analyzeBillImage (worldAnswering "ok") (some (zeroBuffer 100)) (some "image/png")).2 =
        .getGenerativeModel MODEL_NAME "v1beta" :: rest ∧
      ∀ model, (⟨.ok (modelResolving (textResponse "ok"))⟩ : GoogleGenerativeAI).getGenerativeModel
          = .ok model →
        ∃ rest2, rest = .generateContent (.multimodal billImagePrompt (zeroBuffer 100).toBase64
          (some "image/png")) :: rest2 :=
  ⟨(analyzeBillImage_validation (worldAnswering "ok") (some (zeroBuffer 50))
      (some "image/png")).2.1 (zeroBuffer 50) rfl (by simp [zeroBuffer]),
    (analyzeBillImage_validation (worldAnswering "ok") (some (zeroBuffer 100))
      (some "image/png")).2.2.2 (zeroBuffer 100) ⟨.ok (modelResolving (textResponse "ok"))⟩ rfl
      (by simp [zeroBuffer]) rfl⟩

/-- C7, as stated, fails: with the client uninitialized, a present buffer of
100 bytes also ends in `null` with no provider call and no model construction,
and never reaches a generation call. -/
theorem analyzeBillImage_uninitialized_large_buffer :
    (zeroBuffer 100).length = 100 ∧
    (analyzeBillImage (worldWith none) (some (zeroBuffer 100)) (some "image/png")).1 =
      .ok .null ∧
    providerCalls (analyzeBillImage (worldWith none) (some (zeroBuffer 100))
      (some "image/png")).2 = 0 ∧
    modelConstructions (analyzeBillImage (worldWith none) (some (zeroBuffer 100))
      (some "image/png")).2 = 0 :=
  ⟨by simp [zeroBuffer], by rfl, by rfl, by rfl⟩

/-- C8, as the code has it: with the client uninitialized, `analyzeBillText` and
`analyzeWithGemini` on every input, and `analyzeBillImage` on every present
buffer of at least 100 bytes, make no provider call and no model construction,
issue exactly one error-log append, of the record of the initialization error
(written when the file system accepts it), and return `null`;
`analyzeBillImage` on an absent or shorter buffer returns `null` with no effect
at all. -/
theorem uninitialized_client_returns_null (world : World) (text prompt : String)
    (buffer : Option Buffer) (mimetype : Option String) (hnone : world.genAI = none) :
    ((analyzeBillText world text).1 = .ok .null ∧
      providerCalls (analyzeBillText world text).2 = 0 ∧
      modelConstructions (analyzeBillText world text).2 = 0 ∧
      logAppends (analyzeBillText world text).2 =
        [(initializationRecord world "Bill Text AI error",
          appendSucceeds world (initializationRecord world "Bill Text AI error"))]) ∧
    ((analyzeWithGemini world prompt).1 = .ok .null ∧
      providerCalls (analyzeWithGemini world prompt).2 = 0 ∧
      modelConstructions (analyzeWithGemini world prompt).2 = 0 ∧
      logAppends (analyzeWithGemini world prompt).2 =
        [(initializationRecord world "Gemini General AI error",
          appendSucceeds world (initializationRecord world "Gemini General AI error"))]) ∧
    ((∃ bytes, buffer = some bytes ∧ 100 ≤ bytes.length) →
      (analyzeBillImage world buffer mimetype).1 = .ok .null ∧
      providerCalls (analyzeBillImage world buffer mimetype).2 = 0 ∧
      modelConstructions (analyzeBillImage world buffer mimetype).2 = 0 ∧
      logAppends (analyzeBillImage world buffer mimetype).2 =
        [(initializationRecord world "Bill Image AI error",
          appendSucceeds world (initializationRecord world "Bill Image AI error"))]) ∧
    ((buffer = none ∨ ∃ bytes, buffer = some bytes ∧ bytes.length < 100) →
      analyzeBillImage world buffer mimetype = (.ok .null, [])) := by
  have hcatch : ∀ label,
      (catchAndLog world label notInitialized []).1 = .ok .null ∧
      providerCalls (catchAndLog world label notInitialized []).2 = 0 ∧
      modelConstructions (catchAndLog world label notInitialized []).2 = 0 ∧
      logAppends (catchAndLog world label notInitialized []).2 =
        [(initializationRecord world label,
          appendSucceeds world (initializationRecord world label))] := by
    intro label
    rw [catchAndLog_notInitialized]
    obtain ⟨h1, -, h3, h4⟩ := logError_notInitialized world label
    exact ⟨rfl, h3, h4, h1⟩
  refine ⟨?_, ?_, ?_, ?_⟩
  · have h : analyzeBillText world text =
        catchAndLog world "Bill Text AI error" notInitialized [] := by
      simp [analyzeBillText, hnone]
    rw [h]
    exact hcatch _
  · have h : analyzeWithGemini world prompt =
        catchAndLog world "Gemini General AI error" notInitialized [] := by
      simp [analyzeWithGemini, hnone]
    rw [h]
    exact hcatch _
  · rintro ⟨bytes, rfl, hsize⟩
    have hsz : ¬ bytes.length < 100 := by omega
    have h : analyzeBillImage world (some bytes) mimetype =
        catchAndLog world "Bill Image AI error" notInitialized [] := by
      simp [analyzeBillImage, hsz, hnone]
    rw [h]
    exact hcatch _
  · rintro (rfl | ⟨bytes, rfl, hsize⟩)
    · simp [analyzeBillImage]
    · simp [analyzeBillImage, hsize]

/-- C8 at a world with no client and a working log file. -/
theorem uninitialized_client_returns_null_witness :
    (analyzeBillText (worldWith none) "bill").1 = .ok .null ∧
    logAppends (analyzeBillText (worldWith none) "bill").2 =
      [(initializationRecord (worldWith none) "Bill Text AI error", true)] ∧
    (analyzeBillImage (worldWith none) (some (zeroBuffer 100)) none).1 = .ok .null ∧
    analyzeBillImage (worldWith none) (some (zeroBuffer 50)) none = (.ok .null, []) :=
  have h := uninitialized_client_returns_null (worldWith none) "bill" "task"
    (some (zeroBuffer 100)) none rfl
  have h50 := uninitialized_client_returns_null (worldWith none) "bill" "task"
    (some (zeroBuffer 50)) none rfl
  ⟨h.1.1, h.1.2.2.2, (h.2.2.1 ⟨zeroBuffer 100, rfl, by simp [zeroBuffer]⟩).1,
    h50.2.2.2 (Or.inr ⟨zeroBuffer 50, rfl, by simp [zeroBuffer]⟩)⟩

/-- C8, as stated, fails: with the client uninitialized, `analyzeBillImage` on a
50-byte buffer returns at validation, before the client check, and writes no
error-log record; and where the log file cannot be written, the one append of
`analyzeBillText` does not succeed. -/
theorem uninitialized_client_without_record :
    (worldWith none).genAI = none ∧
    analyzeBillImage (worldWith none) (some (zeroBuffer 50)) (some "image/png") =
      (.ok .null, []) ∧
    logAppends (analyzeBillImage (worldWith none) (some (zeroBuffer 50))
      (some "image/png")).2 = [] ∧
    (worldFailingLog none).genAI = none ∧
    logAppends (analyzeBillText (worldFailingLog none) "bill").2 =
      [(initializationRecord (worldFailingLog none) "Bill Text AI error", false)] :=
  ⟨rfl, by rfl, by rfl, rfl, by rfl⟩


theorem generateWithRetry_effects (model : GenerativeModel) (prompt : String) (isImage : Bool)
    (buffer : Option Buffer) (mimetype : Option String) (outcome : Except Thrown (Option String))
    (effects : List Effect)
    (h : generateWithRetry model prompt isImage buffer mimetype = (outcome, effects)) :
    logAppends effects = [] ∧ warnings effects = [] := by
  have h2 := retryLoop_effects model prompt isImage buffer mimetype 3 0
  rw [show retryLoop model prompt isImage buffer mimetype 3 0 =
    generateWithRetry model prompt isImage buffer mimetype from rfl, h] at h2
  exact ⟨h2.1, h2.2.1⟩

/-- On a provider text whose brace span is not valid JSON, `analyzeBillText`
catches the parse failure at the extraction step, emits a warning, writes
nothing to the error log and returns the raw text. -/
theorem analyzeBillText_invalid_span (world : World) (client : GoogleGenerativeAI)
    (model : GenerativeModel) (input text span : String) (effects : List Effect)
    (hclient : world.genAI = some client) (hmodel : client.getGenerativeModel = .ok model)
    (hrun : generateWithRetry model (billTextPrompt input) false none none =
      (.ok (some text), effects))
    (hspan : matchBraceSpan text = some span) (hinvalid : JSON.parse span = none) :
    analyzeBillText world input =
      (.ok (.raw text), .getGenerativeModel MODEL_NAME "v1beta" :: effects ++
        [.consoleWarn "JSON parse failed"]) ∧
    warnings (analyzeBillText world input).2 = ["JSON parse failed"] ∧
    logAppends (analyzeBillText world input).2 = [] := by
  obtain ⟨hne, -⟩ := matchBraceSpan_nonempty text span hspan
  obtain ⟨hl, hw⟩ := generateWithRetry_effects _ _ _ _ _ _ _ hrun
  have h : analyzeBillText world input =
      (.ok (.raw text), .getGenerativeModel MODEL_NAME "v1beta" :: effects ++
        [.consoleWarn "JSON parse failed"]) := by
    simp [analyzeBillText, hclient, hmodel, hrun, parseOrFallback, hspan, hne, hinvalid]
  refine ⟨h, ?_, ?_⟩
  · rw [h]
    simp [warnings, warnings_append, hw]
  · rw [h]
    simp [logAppends, logAppends_append, hl]

/-- On a provider text whose brace span is not valid JSON, `analyzeWithGemini`
catches the parse failure with its empty handler: no warning, nothing written
to the error log, the raw text returned. -/
theorem analyzeWithGemini_invalid_span (world : World) (client : GoogleGenerativeAI)
    (model : GenerativeModel) (prompt text span : String) (effects : List Effect)
    (hclient : world.genAI = some client) (hmodel : client.getGenerativeModel = .ok model)
    (hrun : generateWithRetry model prompt false none none = (.ok (some text), effects))
    (hspan : matchBraceSpan text = some span) (hinvalid : JSON.parse span = none) :
    analyzeWithGemini world prompt =
      (.ok (.raw text), .getGenerativeModel MODEL_NAME "v1beta" :: effects) ∧
    warnings (analyzeWithGemini world prompt).2 = [] ∧
    logAppends (analyzeWithGemini world prompt).2 = [] := by
  obtain ⟨hne, -⟩ := matchBraceSpan_nonempty text span hspan
  obtain ⟨hl, hw⟩ := generateWithRetry_effects _ _ _ _ _ _ _ hrun
  have h : analyzeWithGemini world prompt =
      (.ok (.raw text), .getGenerativeModel MODEL_NAME "v1beta" :: effects) := by
    simp [analyzeWithGemini, hclient, hmodel, hrun, parseOrFallback, hspan, hne, hinvalid]
  refine ⟨h, ?_, ?_⟩
  · rw [h]
    simp [warnings, hw]
  · rw [h]
    simp [logAppends, hl]

/-- On a provider text whose brace span is not valid JSON, `analyzeBillImage`
has no handler at the extraction step: the `SyntaxError` reaches the
operation's error handler, which issues one error-log append for it and no
warning, and the operation returns `null`. -/
theorem analyzeBillImage_invalid_span (world : World) (client : GoogleGenerativeAI)
    (model : GenerativeModel) (buffer : Buffer) (mimetype : Option String)
    (text span : String) (effects : List Effect)
    (hclient : world.genAI = some client) (hmodel : client.getGenerativeModel = .ok model)
    (hsize : 100 ≤ buffer.length)
    (hrun : generateWithRetry model billImagePrompt true (some buffer) mimetype =
      (.ok (some text), effects))
    (hspan : matchBraceSpan text = some span) (hinvalid : JSON.parse span = none) :
    (analyzeBillImage world (some buffer) mimetype).1 = .ok .null ∧
    warnings (analyzeBillImage world (some buffer) mimetype).2 = [] ∧
    logAppends (analyzeBillImage world (some buffer) mimetype).2 =
      [(logRecord world "Bill Image AI error" (some "Unexpected token in JSON")
          (some "SyntaxError: Unexpected token in JSON"),
        appendSucceeds world (logRecord world "Bill Image AI error"
          (some "Unexpected token in JSON")
          (some "SyntaxError: Unexpected token in JSON")))] := by
  obtain ⟨hne, hlen⟩ := matchBraceSpan_nonempty text span hspan
  obtain ⟨hl, hw⟩ := generateWithRetry_effects _ _ _ _ _ _ _ hrun
  have hsz : ¬ buffer.length < 100 := by omega
  have h : analyzeBillImage world (some buffer) mimetype =
      catchAndLog world "Bill Image AI error" jsonSyntaxError
        (.getGenerativeModel MODEL_NAME "v1beta" :: effects) := by
    simp [analyzeBillImage, hsz, hclient, hmodel, hrun, imageResult, hlen, hspan, hne, hinvalid]
  obtain ⟨l1, l2, -, -⟩ := logError_effects world "Bill Image AI error"
    (some "Unexpected token in JSON") (some "SyntaxError: Unexpected token in JSON")
  rw [h]
  simp only [jsonSyntaxError, catchAndLog_object]
  refine ⟨trivial, ?_, ?_⟩
  · simp [warnings_append, warnings, hw, l2]
  · simp [logAppends_append, logAppends, hl, l1]

/-- C9 at the failing input: the provider answers with a text whose brace span
is not valid JSON. `analyzeBillText` does what the claim says (the failure is
caught at the extraction step, a warning is emitted, nothing is written to the
error log, the raw text is returned). `analyzeWithGemini` returns the raw text
but emits no warning. In `analyzeBillImage` the failure is not caught at the
extraction step: it reaches the operation's error handler, which appends a
record to the error log, and no warning is emitted. -/
theorem invalid_span_divergence :
    matchBraceSpan "total \x7boops\x7d" = some "\x7boops\x7d" ∧
    JSON.parse "\x7boops\x7d" = none ∧
    ((analyzeBillText (worldAnswering "total \x7boops\x7d") "bill").1 =
        .ok (.raw "total \x7boops\x7d") ∧
      warnings (analyzeBillText (worldAnswering "total \x7boops\x7d") "bill").2 =
        ["JSON parse failed"] ∧
      logAppends (analyzeBillText (worldAnswering "total \x7boops\x7d") "bill").2 = []) ∧
    ((analyzeWithGemini (worldAnswering "total \x7boops\x7d") "task").1 =
        .ok (.raw "total \x7boops\x7d") ∧
      warnings (analyzeWithGemini (worldAnswering "total \x7boops\x7d") "task").2 = [] ∧
      logAppends (analyzeWithGemini (worldAnswering "total \x7boops\x7d") "task").2 = []) ∧
    ((analyzeBillImage (worldAnswering "total \x7boops\x7d") (some (zeroBuffer 100))
        (some "image/png")).1 = .ok .null ∧
      warnings (analyzeBillImage (worldAnswering "total \x7boops\x7d") (some (zeroBuffer 100))
        (some "image/png")).2 = [] ∧
      logAppends (analyzeBillImage (worldAnswering "total \x7boops\x7d") (some (zeroBuffer 100))
        (some "image/png")).2 =
        [("[2024-01-01T00:00:00.000Z] Bill Image AI error: Unexpected token in JSON\n" ++
          "SyntaxError: Unexpected token in JSON\n\n", true)]) :=
  ⟨by decide, by rfl, ⟨by rfl, by rfl, by rfl⟩, ⟨by rfl, by rfl, by rfl⟩,
    ⟨by rfl, by rfl, by rfl⟩⟩

/-- With both credentials unset or empty the client handle is uninitialized. -/
theorem genAI_uninitialized (geminiEnv googleEnv : Option String) (client : GoogleGenerativeAI)
    (hgemini : geminiEnv = none ∨ geminiEnv = some "")
    (hgoogle : googleEnv = none ∨ googleEnv = some "") :
    genAI geminiEnv googleEnv client = none := by
  rcases hgemini with rfl | rfl <;> rcases hgoogle with rfl | rfl <;> rfl

end BillBackend
